import Mathlib

/-!
# Conda supply step (`src/python/conda/conda.go`)

A shallow embedding of the package `conda`: the version decision, the
installer step, the environment update/clean step, the profile script and
the top-level `Run` pipeline, over explicit collaborator interfaces.

Modelling conventions.

* A Go `string` is a Lean `String` (all literals of the package are ASCII).
* A Go `error` value is a `GoError` carrying its `Error()` text; a `nil`
  error is `none`.
* The collaborators (`Stager`, `Manifest`, `Command`) and the operating
  system calls the package makes (`ioutil.ReadFile`, `ioutil.TempFile`,
  `os.Chmod`) are records of functions of the call arguments: every choice
  of these functions is one behaviour of the environment. The four directory
  getters of `Stager` are values. No two checked calls of a run have the same
  arguments, so each call site can succeed or fail independently.
* `os.Remove(path)` can fail like any other call (`OS.Remove`): it deletes
  `path` when it succeeds and leaves the file system as it is when it fails;
  the package discards its result. `f.Close()` on the fresh temporary file has
  no effect in the model.
* The logger and the file system are explicit state (`State`), together with
  the ordered list of calls made so far. Every outside call may change the
  set of existing paths arbitrarily (`OS.effect`).
* `filepath.Join` and `filepath.Clean` follow the Unix implementation of the Go
  standard library; `fmt.Sprintf` covers the verbs the package uses.
-/

namespace CondaSupply

/-! ## Go values and standard-library functions used by the package -/

/-- Go `error` value, identified by the text its `Error()` method returns. -/
structure GoError where
  msg : String
  deriving DecidableEq, Repr

/-- Formatting loop of `fmt.Sprintf` over the characters of the format, for
the verbs this package uses: `%s` and `%v` consume the next operand and print
its text (`%!s(MISSING)`, `%!v(MISSING)` when no operand is left), `%%` prints a
percent sign, every other character is copied. Operands left over at the end
of the format, which Go reports as `%!(EXTRA ...)`, do not occur in this package
and are dropped. -/
def sprintfChars : List Char → List String → List Char
  | [], _ => []
  | '%' :: '%' :: rest, args => '%' :: sprintfChars rest args
  | '%' :: 's' :: rest, a :: args => a.data ++ sprintfChars rest args
  | '%' :: 'v' :: rest, a :: args => a.data ++ sprintfChars rest args
  | '%' :: 's' :: rest, [] => "%!s(MISSING)".data ++ sprintfChars rest []
  | '%' :: 'v' :: rest, [] => "%!v(MISSING)".data ++ sprintfChars rest []
  | ch :: rest, args => ch :: sprintfChars rest args

/-- Go `fmt.Sprintf(format, args...)`; an operand is given by its text (a string
itself, an error by its `Error()`). -/
def fmt_Sprintf (format : String) (args : List String) : String :=
  ⟨sprintfChars format.data args⟩

/-- Go `fmt.Errorf(format, args...)`: a new error whose text is the formatted
string. -/
def fmt_Errorf (format : String) (args : List String) : GoError :=
  ⟨fmt_Sprintf format args⟩

/-- Go `strings.HasPrefix(s, pre)`. -/
def strings_HasPrefix (s pre : String) : Bool :=
  pre.data.isPrefixOf s.data

/-- Split a path at every `/` (the elements between separators, possibly empty). -/
def splitSlash : List Char → List (List Char)
  | [] => [[]]
  | ch :: rest =>
    match splitSlash rest with
    | [] => [[]]
    | e :: es => if ch = '/' then [] :: e :: es else (ch :: e) :: es

/-- One step of `filepath.Clean` on the stack of elements kept so far (last
element first): empty and `.` elements are dropped, `..` removes the element
before it when there is one to remove, is dropped at the root, and is kept at
the start of a relative path; any other element is kept. -/
def cleanStep (rooted : Bool) (stack : List (List Char)) (e : List Char) : List (List Char) :=
  if e = [] ∨ e = ['.'] then stack
  else if e = ['.', '.'] then
    match stack with
    | [] => if rooted then [] else [e]
    | top :: below => if top = ['.', '.'] then e :: top :: below else below
  else e :: stack

/-- Go `filepath.Clean` (Unix): the shortest path name equivalent to `path` by
purely lexical processing. -/
def filepath_Clean (path : List Char) : List Char :=
  let rooted := path.head? = some '/'
  let kept := ((splitSlash path).foldl (cleanStep rooted) []).reverse
  let body := List.intercalate ['/'] kept
  if rooted then '/' :: body else if body = [] then ['.'] else body

/-- Go `filepath.Join(elem...)` (Unix): the elements from the first non-empty
one on are joined with `/` and the result is cleaned; all empty gives `""`. -/
def filepath_Join : List String → String
  | [] => ""
  | e :: es =>
    if e = "" then filepath_Join es
    else ⟨filepath_Clean (List.intercalate ['/'] ((e :: es).map String.data))⟩

/-- An `io.Writer` handed to the command executor. -/
inductive Writer where
  | stdout
  | stderr
  | indent (inner : Writer) (pre : String)
  deriving DecidableEq, Repr

/-! ## Collaborator interfaces -/

/-- Interface `Stager`. The four directory getters are values; the two
operations report success (`none`) or an error. -/
structure Stager where
  BuildDir : String
  CacheDir : String
  DepDir : String
  DepsIdx : String
  LinkDirectoryInDepDir : String → String → Option GoError
  WriteProfileD : String → String → Option GoError

/-- Interface `Manifest`. -/
structure Manifest where
  InstallOnlyVersion : String → String → Option GoError

/-- Interface `Command`: `Execute(dir, stdout, stderr, program, args...)`. -/
structure Command where
  Execute : String → Writer → Writer → String → List String → Option GoError

/-- A call that leaves the package, with its arguments. -/
inductive Call where
  | tempFile (dir pattern : String)
  | remove (path : String)
  | chmod (path : String) (mode : Nat)
  | installOnlyVersion (depName path : String)
  | execute (dir : String) (out err : Writer) (program : String) (args : List String)
  | linkDirectoryInDepDir (destDir destSubDir : String)
  | writeProfileD (scriptName scriptContents : String)
  deriving DecidableEq, Repr

/-- The set of paths that exist, as a list. -/
abbrev FileSystem := List String

/-- The operating-system calls of the package: `ioutil.ReadFile`,
`ioutil.TempFile` (the name of the file it created, or an error), `os.Chmod`,
`os.Remove`, and what each call to a collaborator or to `os.Chmod` does to the
set of existing paths (the effect of `ioutil.TempFile` and `os.Remove` is in
`State.createTemp` and `State.Remove`). -/
structure OS where
  ReadFile : String → Except GoError String
  TempFile : String → String → Except GoError String
  Chmod : String → Nat → Option GoError
  Remove : String → Option GoError
  effect : Call → FileSystem → FileSystem

/-- The struct `Conda` (its logger is part of `State`). -/
structure Conda where
  Manifest : Manifest
  Stager : Stager
  Command : Command
  os : OS

/-- One entry written through `libbuildpack.Logger`. -/
inductive LogEntry where
  | beginStep (msg : String)
  | error (msg : String)
  deriving DecidableEq, Repr

/-- Mutable surroundings of a run: existing paths, the log, the calls made. -/
structure State where
  fs : FileSystem
  log : List LogEntry
  calls : List Call
  deriving DecidableEq, Repr

/-- State before anything was logged or called. -/
def State.init (fs : FileSystem) : State := ⟨fs, [], []⟩

/-- Logger method `BeginStep(format, args...)`. -/
def State.BeginStep (s : State) (format : String) (args : List String) : State :=
  { s with log := s.log ++ [LogEntry.beginStep (fmt_Sprintf format args)] }

/-- Logger method `Error(format, args...)`. -/
def State.Error (s : State) (format : String) (args : List String) : State :=
  { s with log := s.log ++ [LogEntry.error (fmt_Sprintf format args)] }

/-- Record an outside call and apply its effect on the file system. -/
def State.call (s : State) (c : Conda) (k : Call) : State :=
  { s with fs := c.os.effect k s.fs, calls := s.calls ++ [k] }

/-- A successful `ioutil.TempFile`: the file `name` now exists. -/
def State.createTemp (s : State) (name : String) : State :=
  { s with fs := name :: s.fs }

/-- The call `os.Remove(path)`: when it succeeds the path no longer exists, when
it fails the file system is left as it is. -/
def State.Remove (s : State) (c : Conda) (path : String) : State :=
  { s with
    fs := if c.os.Remove path = none then s.fs.filter (fun p => p ≠ path) else s.fs,
    calls := s.calls ++ [Call.remove path] }

/-- The error a call returns under the behaviour `c` (`none` for `nil`). -/
def Conda.outcome (c : Conda) : Call → Option GoError
  | .tempFile dir pattern =>
    match c.os.TempFile dir pattern with
    | .ok _ => none
    | .error err => some err
  | .remove path => c.os.Remove path
  | .chmod path mode => c.os.Chmod path mode
  | .installOnlyVersion depName path => c.Manifest.InstallOnlyVersion depName path
  | .execute dir out err program args => c.Command.Execute dir out err program args
  | .linkDirectoryInDepDir destDir destSubDir => c.Stager.LinkDirectoryInDepDir destDir destSubDir
  | .writeProfileD scriptName scriptContents => c.Stager.WriteProfileD scriptName scriptContents

/-- Make the call `k`: its returned error, and the state with the call recorded. -/
def Conda.invoke (c : Conda) (k : Call) (s : State) : Option GoError × State :=
  (c.outcome k, s.call c k)

/-! ## The package -/

/-- The function `indentWriter`. -/
def indentWriter (writer : Writer) : Writer :=
  Writer.indent writer "       "

/-- The method `Conda.Version`. -/
def Conda.Version (c : Conda) : String :=
  match c.os.ReadFile (filepath_Join [c.Stager.BuildDir, "runtime.txt"]) with
  | .ok runtime => if strings_HasPrefix runtime "python-3" then "miniconda3" else "miniconda2"
  | .error _ => "miniconda2"

/-- The method `Conda.ProfileD`. -/
def Conda.ProfileD (c : Conda) : String :=
  fmt_Sprintf
    "grep -rlI %s $DEPS_DIR/%s/conda | xargs sed -i -e \"s|%s|$DEPS_DIR/%s|g\"\nsource activate dep_env\n"
    [c.Stager.DepDir, c.Stager.DepsIdx, c.Stager.DepDir, c.Stager.DepsIdx]

/-- The body of `Conda.Install` after the temporary file `installer` was
created (lines 93-106), run before the deferred `os.Remove`. -/
def Conda.installSteps (c : Conda) (version installer : String) (s : State) :
    Option GoError × State :=
  match c.invoke (.installOnlyVersion version installer) s with
  | (some err, s) => (some (fmt_Errorf "Error downloading miniconda: %v" [err.msg]), s)
  | (none, s) =>
    match c.invoke (.chmod installer 0o755) s with
    | (some err, s) => (some err, s)
    | (none, s) =>
      let s := s.BeginStep "Installing Miniconda" []
      let condaHome := filepath_Join [c.Stager.DepDir, "conda"]
      match c.invoke (.execute "/" (indentWriter .stdout) (indentWriter .stderr) installer
          ["-b", "-p", condaHome]) s with
      | (some err, s) => (some (fmt_Errorf "Error installing miniconda: %v" [err.msg]), s)
      | (none, s) => (none, s)

/-- The method `Conda.Install`. -/
def Conda.Install (c : Conda) (version : String) (s : State) : Option GoError × State :=
  let s := s.BeginStep "Supplying conda" []
  let s := { s with calls := s.calls ++ [Call.tempFile "" "miniconda.sh"] }
  match c.os.TempFile "" "miniconda.sh" with
  | .error err => (some err, s)
  | .ok installer =>
    let s := s.createTemp installer
    let (result, s) := c.installSteps version installer s
    (result, s.Remove c installer)

/-- The method `Conda.UpdateAndClean`. -/
def Conda.UpdateAndClean (c : Conda) (s : State) : Option GoError × State :=
  let s := s.BeginStep "Installing Dependencies" []
  let s := s.BeginStep "Installing conda environment from environment.yml" []
  let condaHome := filepath_Join [c.Stager.DepDir, "conda"]
  match c.invoke (.execute "/" (indentWriter .stdout) (indentWriter .stderr)
      (filepath_Join [condaHome, "bin", "conda"])
      ["env", "update", "--quiet", "-n", "dep_env", "-f",
        filepath_Join [c.Stager.BuildDir, "environment.yml"]]) s with
  | (some err, s) => (some (fmt_Errorf "Could not run conda env update: %v" [err.msg]), s)
  | (none, s) =>
    match c.invoke (.execute "/" (indentWriter .stdout) (indentWriter .stderr)
        (filepath_Join [condaHome, "bin", "conda"]) ["clean", "-pt"]) s with
    | (some err, s) =>
      let s := s.Error "Could not run conda clean: %v" [err.msg]
      (some (fmt_Errorf "Could not run conda clean: %v" [err.msg]), s)
    | (none, s) => (none, s)

/-- The function `Run`. -/
def Run (c : Conda) (s : State) : Option GoError × State :=
  match c.Install c.Version s with
  | (some err, s) => (some err, s.Error "Could not install conda: %v" [err.msg])
  | (none, s) =>
    match c.UpdateAndClean s with
    | (some err, s) => (some err, s.Error "Could not update conda env: %v" [err.msg])
    | (none, s) =>
      let (_, s) := c.invoke
        (.linkDirectoryInDepDir (filepath_Join [c.Stager.DepDir, "conda", "bin"]) "bin") s
      match c.invoke (.writeProfileD "conda.sh" c.ProfileD) s with
      | (some err, s) => (some err, s.Error "Could not write profile.d script: %v" [err.msg])
      | (none, s) => (none, s.BeginStep "Done" [])

/-! ## Vocabulary of the specification -/

/-- The call that creates the temporary installer file. -/
def tempFileCall : Call := .tempFile "" "miniconda.sh"

/-- The name `ioutil.TempFile` hands back (only meaningful when it succeeds). -/
def Conda.installer (c : Conda) : String :=
  match c.os.TempFile "" "miniconda.sh" with
  | .ok name => name
  | .error _ => ""

/-- The Resolver call of a run: `InstallOnlyVersion(Version(), installer)`. -/
def Conda.resolverCall (c : Conda) : Call :=
  .installOnlyVersion c.Version c.installer

/-- The executable-permission call: `os.Chmod(installer, 0755)`. -/
def Conda.chmodCall (c : Conda) : Call :=
  .chmod c.installer 0o755

/-- The install subprocess: `<installer> -b -p <dep-dir>/conda`. -/
def Conda.installerCall (c : Conda) : Call :=
  .execute "/" (indentWriter .stdout) (indentWriter .stderr) c.installer
    ["-b", "-p", filepath_Join [c.Stager.DepDir, "conda"]]

/-- The env-update subprocess. -/
def Conda.updateCall (c : Conda) : Call :=
  .execute "/" (indentWriter .stdout) (indentWriter .stderr)
    (filepath_Join [filepath_Join [c.Stager.DepDir, "conda"], "bin", "conda"])
    ["env", "update", "--quiet", "-n", "dep_env", "-f",
      filepath_Join [c.Stager.BuildDir, "environment.yml"]]

/-- The cache-clean subprocess. -/
def Conda.cleanCall (c : Conda) : Call :=
  .execute "/" (indentWriter .stdout) (indentWriter .stderr)
    (filepath_Join [filepath_Join [c.Stager.DepDir, "conda"], "bin", "conda"]) ["clean", "-pt"]

/-- The bin-directory link. -/
def Conda.linkCall (c : Conda) : Call :=
  .linkDirectoryInDepDir (filepath_Join [c.Stager.DepDir, "conda", "bin"]) "bin"

/-- The profile-script write. -/
def Conda.profileCall (c : Conda) : Call :=
  .writeProfileD "conda.sh" c.ProfileD

/-- The calls whose returned error the package checks, in program order. -/
def Conda.checkedCalls (c : Conda) : List Call :=
  [tempFileCall, c.resolverCall, c.chmodCall, c.installerCall, c.updateCall, c.cleanCall,
    c.profileCall]

/-- The failure points of the pipeline. -/
inductive FailurePoint where
  | tempFile
  | resolver
  | chmod
  | installer
  | envUpdate
  | clean
  | profileWrite
  deriving DecidableEq, Repr

/-- Position of a failure point in `Conda.checkedCalls`. -/
def FailurePoint.index : FailurePoint → Nat
  | .tempFile => 0
  | .resolver => 1
  | .chmod => 2
  | .installer => 3
  | .envUpdate => 4
  | .clean => 5
  | .profileWrite => 6

/-- The run fails at `fp` with underlying error `e`: every checked call before
`fp` succeeds and the call at `fp` returns `e`. -/
def Conda.FailsAt (c : Conda) (fp : FailurePoint) (e : GoError) : Prop :=
  (∀ k ∈ c.checkedCalls.take fp.index, c.outcome k = none) ∧
    (c.checkedCalls.get? fp.index).bind c.outcome = some e

instance (c : Conda) (fp : FailurePoint) (e : GoError) : Decidable (c.FailsAt fp e) := by
  unfold Conda.FailsAt
  exact inferInstance

/-- Every checked call succeeds. -/
def Conda.AllSucceed (c : Conda) : Prop :=
  ∀ k ∈ c.checkedCalls, c.outcome k = none

instance (c : Conda) : Decidable c.AllSucceed := by
  unfold Conda.AllSucceed
  exact inferInstance

/-- Calls made through the `Command` interface. -/
def Call.isExecute : Call → Bool
  | .execute _ _ _ _ _ => true
  | _ => false

/-- Calls of `Manifest.InstallOnlyVersion` (the Resolver). -/
def Call.isResolver : Call → Bool
  | .installOnlyVersion _ _ => true
  | _ => false

/-- Calls of `os.Chmod`. -/
def Call.isChmod : Call → Bool
  | .chmod _ _ => true
  | _ => false

/-- Calls of `os.Remove`. -/
def Call.isRemove : Call → Bool
  | .remove _ => true
  | _ => false

/-- Calls made to one of the three collaborators (`Manifest`, `Command`, `Stager`). -/
def Call.isCollaborator : Call → Bool
  | .installOnlyVersion _ _ => true
  | .execute _ _ _ _ _ => true
  | .linkDirectoryInDepDir _ _ => true
  | .writeProfileD _ _ => true
  | _ => false

/-- Log entries of error severity. -/
def LogEntry.isError : LogEntry → Bool
  | .error _ => true
  | .beginStep _ => false

/-- The same behaviour with another `LinkDirectoryInDepDir`. -/
def Conda.withLink (c : Conda) (link : String → String → Option GoError) : Conda :=
  { c with Stager := { c.Stager with LinkDirectoryInDepDir := link } }

/-- The message `returned` is `underlying` wrapped with a stage prefix: a non-empty
prefix followed by the text of `underlying`. -/
def WrappedWithPrefix (returned underlying : GoError) : Prop :=
  ∃ pre : String, pre ≠ "" ∧ returned.msg = pre ++ underlying.msg

/-! ## The outcome table of `Run` -/

/-- The error `Run` returns when the run fails at `fp` with underlying error `e`. -/
def returned : FailurePoint → GoError → GoError
  | .tempFile, e => e
  | .resolver, e => ⟨"Error downloading miniconda: " ++ e.msg⟩
  | .chmod, e => e
  | .installer, e => ⟨"Error installing miniconda: " ++ e.msg⟩
  | .envUpdate, e => ⟨"Could not run conda env update: " ++ e.msg⟩
  | .clean, e => ⟨"Could not run conda clean: " ++ e.msg⟩
  | .profileWrite, e => e

/-- The text with which `Run` logs a failure at `fp`. -/
def stageText : FailurePoint → String
  | .tempFile => "Could not install conda: "
  | .resolver => "Could not install conda: "
  | .chmod => "Could not install conda: "
  | .installer => "Could not install conda: "
  | .envUpdate => "Could not update conda env: "
  | .clean => "Could not update conda env: "
  | .profileWrite => "Could not write profile.d script: "

/-- The step markers logged before the failure at `fp`. -/
def stepsBefore : FailurePoint → List LogEntry
  | .tempFile => [.beginStep "Supplying conda"]
  | .resolver => [.beginStep "Supplying conda"]
  | .chmod => [.beginStep "Supplying conda"]
  | .installer => [.beginStep "Supplying conda", .beginStep "Installing Miniconda"]
  | _ => [.beginStep "Supplying conda", .beginStep "Installing Miniconda",
      .beginStep "Installing Dependencies",
      .beginStep "Installing conda environment from environment.yml"]

/-- The entries a run failing at `fp` with `e` writes to the log. -/
def logged (fp : FailurePoint) (e : GoError) : List LogEntry :=
  stepsBefore fp
    ++ (if fp = .clean then [LogEntry.error ("Could not run conda clean: " ++ e.msg)] else [])
    ++ [LogEntry.error (stageText fp ++ (returned fp e).msg)]

/-- The calls a run failing at `fp` makes, in order. -/
def Conda.callsMade (c : Conda) : FailurePoint → List Call
  | .tempFile => [tempFileCall]
  | .resolver => [tempFileCall, c.resolverCall, .remove c.installer]
  | .chmod => [tempFileCall, c.resolverCall, c.chmodCall, .remove c.installer]
  | .installer =>
    [tempFileCall, c.resolverCall, c.chmodCall, c.installerCall, .remove c.installer]
  | .envUpdate =>
    [tempFileCall, c.resolverCall, c.chmodCall, c.installerCall, .remove c.installer,
      c.updateCall]
  | .clean =>
    [tempFileCall, c.resolverCall, c.chmodCall, c.installerCall, .remove c.installer,
      c.updateCall, c.cleanCall]
  | .profileWrite =>
    [tempFileCall, c.resolverCall, c.chmodCall, c.installerCall, .remove c.installer,
      c.updateCall, c.cleanCall, c.linkCall, c.profileCall]

/-! ## Concrete behaviours used as instances -/

/-- A behaviour in which every call succeeds: no `runtime.txt`, the temporary file
is `/tmp/miniconda.sh123`. -/
def allFine : Conda where
  Manifest := ⟨fun _ _ => none⟩
  Stager := ⟨"/tmp/app", "/tmp/cache", "/home/vcap/deps", "0", fun _ _ => none, fun _ _ => none⟩
  Command := ⟨fun _ _ _ _ _ => none⟩
  os := ⟨fun _ => .error ⟨"open /tmp/app/runtime.txt: no such file or directory"⟩,
    fun _ _ => .ok "/tmp/miniconda.sh123", fun _ _ => none, fun _ => none, fun _ fs => fs⟩

/-- As `allFine`, with `runtime.txt` holding `python-3.6.2`. -/
def python3App : Conda :=
  { allFine with os := { allFine.os with ReadFile := fun _ => .ok "python-3.6.2" } }

/-- As `allFine`, but the temporary file cannot be created. -/
def noTempFile : Conda :=
  { allFine with os := { allFine.os with TempFile := fun _ _ => .error ⟨"no space left on device"⟩ } }

/-- As `allFine`, but the Resolver fails. -/
def resolverDown : Conda :=
  { allFine with Manifest := ⟨fun _ _ => some ⟨"no such version"⟩⟩ }

/-- As `allFine`, but `os.Chmod` fails. -/
def chmodDenied : Conda :=
  { allFine with os := { allFine.os with Chmod := fun _ _ => some ⟨"operation not permitted"⟩ } }

/-- As `allFine`, but `os.Remove` fails. -/
def removeDenied : Conda :=
  { allFine with os := { allFine.os with Remove := fun _ => some ⟨"operation not permitted"⟩ } }

/-- As `chmodDenied`, and `os.Remove` fails too. -/
def chmodRemoveDenied : Conda :=
  { chmodDenied with
    os := { chmodDenied.os with Remove := fun _ => some ⟨"operation not permitted"⟩ } }

/-- As `allFine`, but the install subprocess fails. -/
def installerCrash : Conda :=
  { allFine with Command := ⟨fun _ _ _ _ args =>
      if args.head? = some "-b" then some ⟨"exit status 1"⟩ else none⟩ }

/-- As `allFine`, but the env-update subprocess fails. -/
def updateCrash : Conda :=
  { allFine with Command := ⟨fun _ _ _ _ args =>
      if args.head? = some "env" then some ⟨"exit status 1"⟩ else none⟩ }

/-- As `allFine`, but the cache-clean subprocess fails. -/
def cleanCrash : Conda :=
  { allFine with Command := ⟨fun _ _ _ _ args =>
      if args.head? = some "clean" then some ⟨"exit status 1"⟩ else none⟩ }

/-- As `allFine`, but the profile script cannot be written. -/
def profileReadOnly : Conda :=
  { allFine with Stager := { allFine.Stager with
      WriteProfileD := fun _ _ => some ⟨"read-only file system"⟩ } }

/-- As `allFine`, but linking the bin directory fails. -/
def linkBroken : Conda :=
  allFine.withLink (fun _ _ => some ⟨"file exists"⟩)

/-! ## Formatting lemmas -/

@[simp] theorem sprintf_supplying : fmt_Sprintf "Supplying conda" [] = "Supplying conda" := by
  decide

@[simp] theorem sprintf_installing :
    fmt_Sprintf "Installing Miniconda" [] = "Installing Miniconda" := by
  decide

@[simp] theorem sprintf_dependencies :
    fmt_Sprintf "Installing Dependencies" [] = "Installing Dependencies" := by
  decide

@[simp] theorem sprintf_environment :
    fmt_Sprintf "Installing conda environment from environment.yml" []
      = "Installing conda environment from environment.yml" := by
  decide

@[simp] theorem sprintf_done : fmt_Sprintf "Done" [] = "Done" := by
  decide

@[simp] theorem sprintf_downloading (m : String) :
    fmt_Sprintf "Error downloading miniconda: %v" [m] = "Error downloading miniconda: " ++ m := by
  apply String.ext
  simp [fmt_Sprintf, sprintfChars, String.data_append]

@[simp] theorem sprintf_installing_failed (m : String) :
    fmt_Sprintf "Error installing miniconda: %v" [m] = "Error installing miniconda: " ++ m := by
  apply String.ext
  simp [fmt_Sprintf, sprintfChars, String.data_append]

@[simp] theorem sprintf_update_failed (m : String) :
    fmt_Sprintf "Could not run conda env update: %v" [m]
      = "Could not run conda env update: " ++ m := by
  apply String.ext
  simp [fmt_Sprintf, sprintfChars, String.data_append]

@[simp] theorem sprintf_clean_failed (m : String) :
    fmt_Sprintf "Could not run conda clean: %v" [m] = "Could not run conda clean: " ++ m := by
  apply String.ext
  simp [fmt_Sprintf, sprintfChars, String.data_append]

@[simp] theorem sprintf_stage_install (m : String) :
    fmt_Sprintf "Could not install conda: %v" [m] = "Could not install conda: " ++ m := by
  apply String.ext
  simp [fmt_Sprintf, sprintfChars, String.data_append]

@[simp] theorem sprintf_stage_update (m : String) :
    fmt_Sprintf "Could not update conda env: %v" [m] = "Could not update conda env: " ++ m := by
  apply String.ext
  simp [fmt_Sprintf, sprintfChars, String.data_append]

@[simp] theorem sprintf_stage_profile (m : String) :
    fmt_Sprintf "Could not write profile.d script: %v" [m]
      = "Could not write profile.d script: " ++ m := by
  apply String.ext
  simp [fmt_Sprintf, sprintfChars, String.data_append]

/-! ## `filepath.Join` on a clean directory -/

theorem splitSlash_ne_nil (l : List Char) : splitSlash l ≠ [] := by
  cases l with
  | nil => simp [splitSlash]
  | cons ch rest =>
    unfold splitSlash
    cases h : splitSlash rest with
    | nil => simp
    | cons e es => by_cases hc : ch = '/' <;> simp [hc]

theorem splitSlash_cons_of (ch : Char) (rest e : List Char) (es : List (List Char))
    (h : splitSlash rest = e :: es) :
    splitSlash (ch :: rest) = if ch = '/' then [] :: e :: es else (ch :: e) :: es := by
  rw [splitSlash, h]

theorem splitSlash_append_slash (a b : List Char) :
    splitSlash (a ++ '/' :: b) = splitSlash a ++ splitSlash b := by
  induction a with
  | nil =>
    obtain ⟨e, es, h⟩ := List.exists_cons_of_ne_nil (splitSlash_ne_nil b)
    simp [splitSlash, h]
  | cons ch rest ih =>
    obtain ⟨e, es, h⟩ := List.exists_cons_of_ne_nil (splitSlash_ne_nil rest)
    have h2 : splitSlash (rest ++ '/' :: b) = e :: (es ++ splitSlash b) := by
      rw [ih, h]; rfl
    rw [List.cons_append, splitSlash_cons_of ch _ _ _ h2, splitSlash_cons_of ch _ _ _ h]
    by_cases hc : ch = '/' <;> simp [hc]

theorem splitSlash_simple (n : List Char) (h : '/' ∉ n) : splitSlash n = [n] := by
  induction n with
  | nil => rfl
  | cons ch rest ih =>
    have h1 : ch ≠ '/' := fun hc => h (by simp [hc])
    have h2 : '/' ∉ rest := fun hc => h (by simp [hc])
    simp [splitSlash, ih h2, h1]

theorem intercalate_concat (sep : List Char) (l : List (List Char)) (x : List Char)
    (h : l ≠ []) : List.intercalate sep (l ++ [x]) = List.intercalate sep l ++ sep ++ x := by
  induction l with
  | nil => exact absurd rfl h
  | cons a rest ih =>
    cases rest with
    | nil => simp [List.intercalate, List.intersperse]
    | cons b rest2 =>
      have := ih (by simp)
      simp [List.intercalate, List.intersperse] at this ⊢
      exact this

theorem filepath_Clean_append (d n : List Char) (hc : filepath_Clean d = d)
    (h0 : d ≠ []) (h1 : d ≠ ['/']) (h2 : d ≠ ['.'])
    (hn : '/' ∉ n) (hn0 : n ≠ []) (hn1 : n ≠ ['.']) (hn2 : n ≠ ['.', '.']) :
    filepath_Clean (d ++ '/' :: n) = d ++ '/' :: n := by
  have hhead : (d ++ '/' :: n).head? = d.head? := by
    cases d with
    | nil => exact absurd rfl h0
    | cons a rest => rfl
  unfold filepath_Clean at hc ⊢
  simp only [hhead, splitSlash_append_slash, splitSlash_simple n hn, List.foldl_append,
    List.foldl_cons, List.foldl_nil]
  have hstep : ∀ stack, cleanStep (decide (d.head? = some '/')) stack n = n :: stack := by
    intro stack
    simp [cleanStep, hn0, hn1, hn2]
  rw [hstep, List.reverse_cons]
  by_cases hr : d.head? = some '/'
  · simp only [hr, decide_True, if_true] at hc ⊢
    have hK : (List.foldl (cleanStep true) [] (splitSlash d)).reverse ≠ [] := by
      intro hK
      rw [hK] at hc
      exact h1 hc.symm
    rw [intercalate_concat _ _ _ hK]
    conv_rhs => rw [← hc]
    simp
  · simp only [hr, decide_False, if_false] at hc ⊢
    by_cases hb : List.intercalate ['/'] (List.foldl (cleanStep false) [] (splitSlash d)).reverse = []
    · simp only [hb, if_true] at hc
      exact absurd hc.symm h2
    · simp only [hb, if_false] at hc
      have hK : (List.foldl (cleanStep false) [] (splitSlash d)).reverse ≠ [] := by
        intro hK
        rw [hK] at hb
        exact hb rfl
      rw [intercalate_concat _ _ _ hK, hc]
      simp

theorem filepath_Clean_append_two (d a b : List Char) (hc : filepath_Clean d = d)
    (h0 : d ≠ []) (h1 : d ≠ ['/']) (h2 : d ≠ ['.'])
    (ha : '/' ∉ a) (ha0 : a ≠ []) (ha1 : a ≠ ['.']) (ha2 : a ≠ ['.', '.'])
    (hb : '/' ∉ b) (hb0 : b ≠ []) (hb1 : b ≠ ['.']) (hb2 : b ≠ ['.', '.']) :
    filepath_Clean (d ++ '/' :: (a ++ '/' :: b)) = d ++ '/' :: (a ++ '/' :: b) := by
  have h := filepath_Clean_append d a hc h0 h1 h2 ha ha0 ha1 ha2
  have hlen : 2 ≤ (d ++ '/' :: a).length := by
    have : 0 < d.length := List.length_pos.2 h0
    simp
    omega
  have e0 : d ++ '/' :: a ≠ [] := by simp
  have e1 : d ++ '/' :: a ≠ ['/'] := by
    intro hh; rw [hh] at hlen; simp at hlen
  have e2 : d ++ '/' :: a ≠ ['.'] := by
    intro hh; rw [hh] at hlen; simp at hlen
  have := filepath_Clean_append (d ++ '/' :: a) b h e0 e1 e2 hb hb0 hb1 hb2
  simpa using this

theorem filepath_Join_single (d : String) (h : d ≠ "") :
    filepath_Join [d] = ⟨filepath_Clean d.data⟩ := by
  simp [filepath_Join, h, List.intercalate, List.intersperse]

theorem data_ne_of_ne {a b : String} (h : a ≠ b) : a.data ≠ b.data :=
  fun hd => h (String.ext hd)

/-- For a directory `dir` that is already clean (`filepath.Join(dir) = dir`) and is
none of `""`, `/`, `.`, the paths the package builds with `filepath.Join` are the
plain texts `dir/conda`, `dir/conda/bin/conda`, `dir/conda/bin`,
`dir/environment.yml` and `dir/runtime.txt`. -/
theorem filepath_Join_literal (dir : String) (hclean : filepath_Join [dir] = dir)
    (h0 : dir ≠ "") (h1 : dir ≠ "/") (h2 : dir ≠ ".") :
    filepath_Join [dir, "conda"] = dir ++ "/conda"
    ∧ filepath_Join [filepath_Join [dir, "conda"], "bin", "conda"] = dir ++ "/conda/bin/conda"
    ∧ filepath_Join [dir, "conda", "bin"] = dir ++ "/conda/bin"
    ∧ filepath_Join [dir, "environment.yml"] = dir ++ "/environment.yml"
    ∧ filepath_Join [dir, "runtime.txt"] = dir ++ "/runtime.txt" := by
  have hc : filepath_Clean dir.data = dir.data := by
    rw [filepath_Join_single dir h0] at hclean
    exact congrArg String.data hclean
  have d0 : dir.data ≠ [] := data_ne_of_ne h0
  have d1 : dir.data ≠ ['/'] := data_ne_of_ne h1
  have d2 : dir.data ≠ ['.'] := data_ne_of_ne h2
  have hconda : filepath_Join [dir, "conda"] = dir ++ "/conda" := by
    apply String.ext
    have := filepath_Clean_append dir.data "conda".data hc d0 d1 d2
      (by decide) (by decide) (by decide) (by decide)
    simpa [filepath_Join, h0, List.intercalate, List.intersperse, String.data_append] using this
  have hne : dir ++ "/conda" ≠ "" := by
    intro hh
    have := congrArg String.data hh
    simp [String.data_append] at this
  refine ⟨hconda, ?_, ?_, ?_, ?_⟩
  · rw [hconda]
    apply String.ext
    have h3 := filepath_Clean_append dir.data "conda".data hc d0 d1 d2
      (by decide) (by decide) (by decide) (by decide)
    have hlen : 2 ≤ (dir.data ++ '/' :: "conda".data).length := by simp
    have := filepath_Clean_append_two (dir.data ++ '/' :: "conda".data) "bin".data "conda".data
      h3 (by simp) (by intro hh; rw [hh] at hlen; simp at hlen)
      (by intro hh; rw [hh] at hlen; simp at hlen)
      (by decide) (by decide) (by decide) (by decide) (by decide) (by decide) (by decide)
      (by decide)
    simpa [filepath_Join, hne, List.intercalate, List.intersperse, String.data_append] using this
  · apply String.ext
    have := filepath_Clean_append_two dir.data "conda".data "bin".data hc d0 d1 d2
      (by decide) (by decide) (by decide) (by decide) (by decide) (by decide) (by decide)
      (by decide)
    simpa [filepath_Join, h0, List.intercalate, List.intersperse, String.data_append] using this
  · apply String.ext
    have := filepath_Clean_append dir.data "environment.yml".data hc d0 d1 d2
      (by decide) (by decide) (by decide) (by decide)
    simpa [filepath_Join, h0, List.intercalate, List.intersperse, String.data_append] using this
  · apply String.ext
    have := filepath_Clean_append dir.data "runtime.txt".data hc d0 d1 d2
      (by decide) (by decide) (by decide) (by decide)
    simpa [filepath_Join, h0, List.intercalate, List.intersperse, String.data_append] using this

theorem filepath_Join_literal_example :
    filepath_Join ["/home/vcap/deps"] = "/home/vcap/deps"
    ∧ filepath_Join [filepath_Join ["/home/vcap/deps", "conda"], "bin", "conda"]
        = "/home/vcap/deps" ++ "/conda/bin/conda" :=
  ⟨by decide,
   (filepath_Join_literal "/home/vcap/deps" (by decide) (by decide) (by decide)
    (by decide)).2.1⟩

/-! ## Case lemmas for `Install`, `UpdateAndClean` and `Run` -/

theorem installer_of_ok {c : Conda} {p : String}
    (h : c.os.TempFile "" "miniconda.sh" = .ok p) : c.installer = p := by
  simp [Conda.installer, h]

theorem tempFile_ok_of_outcome {c : Conda} (h : c.outcome tempFileCall = none) :
    c.os.TempFile "" "miniconda.sh" = .ok c.installer := by
  unfold Conda.outcome tempFileCall at h
  unfold Conda.installer
  cases hT : c.os.TempFile "" "miniconda.sh" with
  | ok p => rfl
  | error e => simp [hT] at h

theorem tempFile_error_of_outcome {c : Conda} {e : GoError}
    (h : c.outcome tempFileCall = some e) : c.os.TempFile "" "miniconda.sh" = .error e := by
  unfold Conda.outcome tempFileCall at h
  cases hT : c.os.TempFile "" "miniconda.sh" with
  | ok p => simp [hT] at h
  | error e0 => simp [hT] at h; rw [h]

theorem Install_tempFile (c : Conda) (v : String) (s : State) (e : GoError)
    (h : c.outcome tempFileCall = some e) :
    c.Install v s = (some e, ⟨s.fs, s.log ++ [.beginStep "Supplying conda"],
      s.calls ++ [tempFileCall]⟩) := by
  simp [Conda.Install, tempFile_error_of_outcome h, State.BeginStep, tempFileCall]

theorem Install_resolver (c : Conda) (v : String) (s : State) (e : GoError)
    (h1 : c.outcome tempFileCall = none)
    (h2 : c.outcome (.installOnlyVersion v c.installer) = some e) :
    ∃ fs, c.Install v s = (some ⟨"Error downloading miniconda: " ++ e.msg⟩,
      ⟨fs, s.log ++ [.beginStep "Supplying conda"],
        s.calls ++ [tempFileCall, .installOnlyVersion v c.installer, .remove c.installer]⟩) := by
  refine ⟨(c.Install v s).2.fs, ?_⟩
  simp [Conda.Install, Conda.installSteps, Conda.invoke, tempFile_ok_of_outcome h1, h2,
    State.BeginStep, State.createTemp, State.call, State.Remove, fmt_Errorf, tempFileCall]

theorem Install_chmod (c : Conda) (v : String) (s : State) (e : GoError)
    (h1 : c.outcome tempFileCall = none)
    (h2 : c.outcome (.installOnlyVersion v c.installer) = none)
    (h3 : c.outcome c.chmodCall = some e) :
    ∃ fs, c.Install v s = (some e,
      ⟨fs, s.log ++ [.beginStep "Supplying conda"],
        s.calls ++ [tempFileCall, .installOnlyVersion v c.installer, c.chmodCall,
          .remove c.installer]⟩) := by
  refine ⟨(c.Install v s).2.fs, ?_⟩
  unfold Conda.chmodCall at h3
  simp [Conda.Install, Conda.installSteps, Conda.invoke, tempFile_ok_of_outcome h1, h2, h3,
    State.BeginStep, State.createTemp, State.call, State.Remove, fmt_Errorf, tempFileCall,
    Conda.chmodCall]

theorem Install_installer (c : Conda) (v : String) (s : State) (e : GoError)
    (h1 : c.outcome tempFileCall = none)
    (h2 : c.outcome (.installOnlyVersion v c.installer) = none)
    (h3 : c.outcome c.chmodCall = none)
    (h4 : c.outcome c.installerCall = some e) :
    ∃ fs, c.Install v s = (some ⟨"Error installing miniconda: " ++ e.msg⟩,
      ⟨fs, s.log ++ [.beginStep "Supplying conda", .beginStep "Installing Miniconda"],
        s.calls ++ [tempFileCall, .installOnlyVersion v c.installer, c.chmodCall,
          c.installerCall, .remove c.installer]⟩) := by
  refine ⟨(c.Install v s).2.fs, ?_⟩
  unfold Conda.chmodCall at h3
  unfold Conda.installerCall at h4
  simp [Conda.Install, Conda.installSteps, Conda.invoke, tempFile_ok_of_outcome h1, h2, h3, h4,
    State.BeginStep, State.createTemp, State.call, State.Remove, fmt_Errorf, tempFileCall,
    Conda.chmodCall, Conda.installerCall]

theorem Install_ok (c : Conda) (v : String) (s : State)
    (h1 : c.outcome tempFileCall = none)
    (h2 : c.outcome (.installOnlyVersion v c.installer) = none)
    (h3 : c.outcome c.chmodCall = none)
    (h4 : c.outcome c.installerCall = none) :
    ∃ fs, c.Install v s = (none,
      ⟨fs, s.log ++ [.beginStep "Supplying conda", .beginStep "Installing Miniconda"],
        s.calls ++ [tempFileCall, .installOnlyVersion v c.installer, c.chmodCall,
          c.installerCall, .remove c.installer]⟩) := by
  refine ⟨(c.Install v s).2.fs, ?_⟩
  unfold Conda.chmodCall at h3
  unfold Conda.installerCall at h4
  simp [Conda.Install, Conda.installSteps, Conda.invoke, tempFile_ok_of_outcome h1, h2, h3, h4,
    State.BeginStep, State.createTemp, State.call, State.Remove, fmt_Errorf, tempFileCall,
    Conda.chmodCall, Conda.installerCall]

theorem UpdateAndClean_update (c : Conda) (s : State) (e : GoError)
    (h1 : c.outcome c.updateCall = some e) :
    ∃ fs, c.UpdateAndClean s = (some ⟨"Could not run conda env update: " ++ e.msg⟩,
      ⟨fs, s.log ++ [.beginStep "Installing Dependencies",
          .beginStep "Installing conda environment from environment.yml"],
        s.calls ++ [c.updateCall]⟩) := by
  refine ⟨(c.UpdateAndClean s).2.fs, ?_⟩
  unfold Conda.updateCall at h1
  simp [Conda.UpdateAndClean, Conda.invoke, h1, State.BeginStep, State.call, fmt_Errorf,
    Conda.updateCall]

theorem UpdateAndClean_clean (c : Conda) (s : State) (e : GoError)
    (h1 : c.outcome c.updateCall = none) (h2 : c.outcome c.cleanCall = some e) :
    ∃ fs, c.UpdateAndClean s = (some ⟨"Could not run conda clean: " ++ e.msg⟩,
      ⟨fs, s.log ++ [.beginStep "Installing Dependencies",
          .beginStep "Installing conda environment from environment.yml",
          .error ("Could not run conda clean: " ++ e.msg)],
        s.calls ++ [c.updateCall, c.cleanCall]⟩) := by
  refine ⟨(c.UpdateAndClean s).2.fs, ?_⟩
  unfold Conda.updateCall at h1
  unfold Conda.cleanCall at h2
  simp [Conda.UpdateAndClean, Conda.invoke, h1, h2, State.BeginStep, State.call, fmt_Errorf,
    Conda.updateCall, Conda.cleanCall, State.Error]

theorem UpdateAndClean_ok (c : Conda) (s : State)
    (h1 : c.outcome c.updateCall = none) (h2 : c.outcome c.cleanCall = none) :
    ∃ fs, c.UpdateAndClean s = (none,
      ⟨fs, s.log ++ [.beginStep "Installing Dependencies",
          .beginStep "Installing conda environment from environment.yml"],
        s.calls ++ [c.updateCall, c.cleanCall]⟩) := by
  refine ⟨(c.UpdateAndClean s).2.fs, ?_⟩
  unfold Conda.updateCall at h1
  unfold Conda.cleanCall at h2
  simp [Conda.UpdateAndClean, Conda.invoke, h1, h2, State.BeginStep, State.call, fmt_Errorf,
    Conda.updateCall, Conda.cleanCall, State.Error]

theorem failsAt_iff (c : Conda) (fp : FailurePoint) (e : GoError) :
    c.FailsAt fp e ↔
      match fp with
      | .tempFile => c.outcome tempFileCall = some e
      | .resolver => c.outcome tempFileCall = none ∧ c.outcome c.resolverCall = some e
      | .chmod => c.outcome tempFileCall = none ∧ c.outcome c.resolverCall = none
          ∧ c.outcome c.chmodCall = some e
      | .installer => c.outcome tempFileCall = none ∧ c.outcome c.resolverCall = none
          ∧ c.outcome c.chmodCall = none ∧ c.outcome c.installerCall = some e
      | .envUpdate => c.outcome tempFileCall = none ∧ c.outcome c.resolverCall = none
          ∧ c.outcome c.chmodCall = none ∧ c.outcome c.installerCall = none
          ∧ c.outcome c.updateCall = some e
      | .clean => c.outcome tempFileCall = none ∧ c.outcome c.resolverCall = none
          ∧ c.outcome c.chmodCall = none ∧ c.outcome c.installerCall = none
          ∧ c.outcome c.updateCall = none ∧ c.outcome c.cleanCall = some e
      | .profileWrite => c.outcome tempFileCall = none ∧ c.outcome c.resolverCall = none
          ∧ c.outcome c.chmodCall = none ∧ c.outcome c.installerCall = none
          ∧ c.outcome c.updateCall = none ∧ c.outcome c.cleanCall = none
          ∧ c.outcome c.profileCall = some e := by
  cases fp <;>
    simp [Conda.FailsAt, Conda.checkedCalls, FailurePoint.index, and_assoc]

theorem allSucceed_iff (c : Conda) :
    c.AllSucceed ↔ c.outcome tempFileCall = none ∧ c.outcome c.resolverCall = none
      ∧ c.outcome c.chmodCall = none ∧ c.outcome c.installerCall = none
      ∧ c.outcome c.updateCall = none ∧ c.outcome c.cleanCall = none
      ∧ c.outcome c.profileCall = none := by
  simp [Conda.AllSucceed, Conda.checkedCalls]

theorem scenario (c : Conda) : c.AllSucceed ∨ ∃ fp e, c.FailsAt fp e := by
  rw [allSucceed_iff]
  cases h1 : c.outcome tempFileCall with
  | some e => exact Or.inr ⟨.tempFile, e, (failsAt_iff c _ e).2 h1⟩
  | none =>
  cases h2 : c.outcome c.resolverCall with
  | some e => exact Or.inr ⟨.resolver, e, (failsAt_iff c _ e).2 ⟨h1, h2⟩⟩
  | none =>
  cases h3 : c.outcome c.chmodCall with
  | some e => exact Or.inr ⟨.chmod, e, (failsAt_iff c _ e).2 ⟨h1, h2, h3⟩⟩
  | none =>
  cases h4 : c.outcome c.installerCall with
  | some e => exact Or.inr ⟨.installer, e, (failsAt_iff c _ e).2 ⟨h1, h2, h3, h4⟩⟩
  | none =>
  cases h5 : c.outcome c.updateCall with
  | some e => exact Or.inr ⟨.envUpdate, e, (failsAt_iff c _ e).2 ⟨h1, h2, h3, h4, h5⟩⟩
  | none =>
  cases h6 : c.outcome c.cleanCall with
  | some e => exact Or.inr ⟨.clean, e, (failsAt_iff c _ e).2 ⟨h1, h2, h3, h4, h5, h6⟩⟩
  | none =>
  cases h7 : c.outcome c.profileCall with
  | some e => exact Or.inr ⟨.profileWrite, e, (failsAt_iff c _ e).2 ⟨h1, h2, h3, h4, h5, h6, h7⟩⟩
  | none => exact Or.inl ⟨rfl, rfl, rfl, rfl, rfl, rfl, rfl⟩

theorem Run_failsAt (c : Conda) (s : State) (fp : FailurePoint) (e : GoError)
    (h : c.FailsAt fp e) :
    ∃ fs, Run c s = (some (returned fp e),
      ⟨fs, s.log ++ logged fp e, s.calls ++ c.callsMade fp⟩) := by
  rw [failsAt_iff] at h
  cases fp with
  | tempFile =>
    refine ⟨s.fs, ?_⟩
    simp [Run, Install_tempFile c c.Version s e h, State.Error, returned, logged, stepsBefore,
      stageText, Conda.callsMade]
  | resolver =>
    obtain ⟨h1, h2⟩ := h
    obtain ⟨fs, hI⟩ := Install_resolver c c.Version s e h1 h2
    refine ⟨fs, ?_⟩
    simp [Run, hI, State.Error, returned, logged, stepsBefore, stageText, Conda.callsMade,
      Conda.resolverCall]
  | chmod =>
    obtain ⟨h1, h2, h3⟩ := h
    obtain ⟨fs, hI⟩ := Install_chmod c c.Version s e h1 h2 h3
    refine ⟨fs, ?_⟩
    simp [Run, hI, State.Error, returned, logged, stepsBefore, stageText, Conda.callsMade,
      Conda.resolverCall]
  | installer =>
    obtain ⟨h1, h2, h3, h4⟩ := h
    obtain ⟨fs, hI⟩ := Install_installer c c.Version s e h1 h2 h3 h4
    refine ⟨fs, ?_⟩
    simp [Run, hI, State.Error, returned, logged, stepsBefore, stageText, Conda.callsMade,
      Conda.resolverCall]
  | envUpdate =>
    obtain ⟨h1, h2, h3, h4, h5⟩ := h
    obtain ⟨fs1, hI⟩ := Install_ok c c.Version s h1 h2 h3 h4
    obtain ⟨fs, hU⟩ := UpdateAndClean_update c (c.Install c.Version s).2 e h5
    rw [hI] at hU
    refine ⟨fs, ?_⟩
    simp [Run, hI, hU, State.Error, returned, logged, stepsBefore, stageText, Conda.callsMade,
      Conda.resolverCall]
  | clean =>
    obtain ⟨h1, h2, h3, h4, h5, h6⟩ := h
    obtain ⟨fs1, hI⟩ := Install_ok c c.Version s h1 h2 h3 h4
    obtain ⟨fs, hU⟩ := UpdateAndClean_clean c (c.Install c.Version s).2 e h5 h6
    rw [hI] at hU
    refine ⟨fs, ?_⟩
    simp [Run, hI, hU, State.Error, returned, logged, stepsBefore, stageText, Conda.callsMade,
      Conda.resolverCall]
  | profileWrite =>
    obtain ⟨h1, h2, h3, h4, h5, h6, h7⟩ := h
    obtain ⟨fs1, hI⟩ := Install_ok c c.Version s h1 h2 h3 h4
    obtain ⟨fs2, hU⟩ := UpdateAndClean_ok c (c.Install c.Version s).2 h5 h6
    rw [hI] at hU
    refine ⟨(Run c s).2.fs, ?_⟩
    unfold Conda.profileCall at h7
    simp [Run, hI, hU, Conda.invoke, h7, State.call, State.Error, returned, logged,
      stepsBefore, stageText, Conda.callsMade, Conda.resolverCall, Conda.linkCall,
      Conda.profileCall]

theorem Run_allSucceed (c : Conda) (s : State) (h : c.AllSucceed) :
    ∃ fs, Run c s = (none,
      ⟨fs, s.log ++ [.beginStep "Supplying conda", .beginStep "Installing Miniconda",
          .beginStep "Installing Dependencies",
          .beginStep "Installing conda environment from environment.yml", .beginStep "Done"],
        s.calls ++ c.callsMade .profileWrite⟩) := by
  rw [allSucceed_iff] at h
  obtain ⟨h1, h2, h3, h4, h5, h6, h7⟩ := h
  obtain ⟨fs1, hI⟩ := Install_ok c c.Version s h1 h2 h3 h4
  obtain ⟨fs2, hU⟩ := UpdateAndClean_ok c (c.Install c.Version s).2 h5 h6
  rw [hI] at hU
  refine ⟨(Run c s).2.fs, ?_⟩
  unfold Conda.profileCall at h7
  simp [Run, hI, hU, Conda.invoke, h7, State.call, State.BeginStep, Conda.callsMade,
    Conda.resolverCall, Conda.linkCall, Conda.profileCall]

theorem strings_HasPrefix_iff (s pre : String) :
    strings_HasPrefix s pre = true ↔ ∃ rest : String, s = pre ++ rest := by
  unfold strings_HasPrefix
  rw [List.isPrefixOf_iff_prefix]
  constructor
  · rintro ⟨t, ht⟩
    exact ⟨⟨t⟩, String.ext (by simp [String.data_append, ht])⟩
  · rintro ⟨rest, rfl⟩
    exact ⟨rest.data, by simp [String.data_append]⟩

theorem Version_eq_three_iff (c : Conda) :
    c.Version = "miniconda3" ↔
      ∃ content rest : String,
        c.os.ReadFile (filepath_Join [c.Stager.BuildDir, "runtime.txt"]) = .ok content
          ∧ content = "python-3" ++ rest := by
  unfold Conda.Version
  cases hR : c.os.ReadFile (filepath_Join [c.Stager.BuildDir, "runtime.txt"]) with
  | error e => simp
  | ok runtime =>
    by_cases hp : strings_HasPrefix runtime "python-3" = true
    · have := (strings_HasPrefix_iff runtime "python-3").1 hp
      simp [hp]
      exact this
    · have hn : ¬ ∃ rest : String, runtime = "python-3" ++ rest :=
        fun h => hp ((strings_HasPrefix_iff runtime "python-3").2 h)
      simp [hp]
      exact fun x hx => hn ⟨x, hx⟩

theorem Version_two_or_three (c : Conda) :
    c.Version = "miniconda3" ∨ c.Version = "miniconda2" := by
  unfold Conda.Version
  cases c.os.ReadFile (filepath_Join [c.Stager.BuildDir, "runtime.txt"]) with
  | error e => exact Or.inr rfl
  | ok runtime =>
    by_cases hp : strings_HasPrefix runtime "python-3" = true
    · exact Or.inl (by simp [hp])
    · exact Or.inr (by simp [hp])

/-- C1. `Conda.Version` returns `"miniconda3"` exactly when reading
`<build-dir>/runtime.txt` succeeds with content that starts with `python-3`. In
every other case it returns `"miniconda2"`: on a read error, on empty content, on
`python-2.7.13`, on ` python-3`. It is a total function with no third value. -/
theorem C1_version_decision (c : Conda) :
    (c.Version = "miniconda3" ↔
      ∃ content rest : String,
        c.os.ReadFile (filepath_Join [c.Stager.BuildDir, "runtime.txt"]) = .ok content
          ∧ content = "python-3" ++ rest)
    ∧ (c.Version = "miniconda2" ↔
      ¬ ∃ content rest : String,
        c.os.ReadFile (filepath_Join [c.Stager.BuildDir, "runtime.txt"]) = .ok content
          ∧ content = "python-3" ++ rest)
    ∧ (c.Version = "miniconda3" ∨ c.Version = "miniconda2")
    ∧ (∀ e, c.os.ReadFile (filepath_Join [c.Stager.BuildDir, "runtime.txt"]) = .error e →
        c.Version = "miniconda2")
    ∧ (c.os.ReadFile (filepath_Join [c.Stager.BuildDir, "runtime.txt"]) = .ok "" →
        c.Version = "miniconda2")
    ∧ (c.os.ReadFile (filepath_Join [c.Stager.BuildDir, "runtime.txt"]) = .ok "python-2.7.13" →
        c.Version = "miniconda2")
    ∧ (c.os.ReadFile (filepath_Join [c.Stager.BuildDir, "runtime.txt"]) = .ok " python-3" →
        c.Version = "miniconda2") := by
  refine ⟨Version_eq_three_iff c, ?_, Version_two_or_three c, ?_, ?_, ?_, ?_⟩
  · rw [← Version_eq_three_iff]
    rcases Version_two_or_three c with h | h
    · simp [h]
    · simp [h]
  · intro e h
    simp [Conda.Version, h]
  · intro h
    simp [Conda.Version, h]
    decide
  · intro h
    simp [Conda.Version, h]
    decide
  · intro h
    simp [Conda.Version, h]
    decide

/-- C1 at concrete behaviours: no `runtime.txt` gives `miniconda2`, and
`runtime.txt` holding `python-3.6.2` gives `miniconda3`. -/
theorem C1_version_decision_witness :
    allFine.Version = "miniconda2" ∧ python3App.Version = "miniconda3" :=
  ⟨(C1_version_decision allFine).2.2.2.1
      ⟨"open /tmp/app/runtime.txt: no such file or directory"⟩ rfl,
   (C1_version_decision python3App).1.2 ⟨"python-3.6.2", ".6.2", rfl, by decide⟩⟩

/-- C2. The profile script is a function of the dependency directory `d` of the Stager
and index `i` only: the line
`grep -rlI d $DEPS_DIR/i/conda | xargs sed -i -e "s|d|$DEPS_DIR/i|g"`
followed by the line `source activate dep_env`, each ended by a newline, with `d`
and `i` substituted verbatim. For `d = /home/vcap/deps` and `i = 0` it is the
script the specification quotes. -/
theorem C2_profileD_content (c : Conda) :
    c.ProfileD =
        "grep -rlI " ++ c.Stager.DepDir ++ " $DEPS_DIR/" ++ c.Stager.DepsIdx
          ++ "/conda | xargs sed -i -e \"s|" ++ c.Stager.DepDir ++ "|$DEPS_DIR/"
          ++ c.Stager.DepsIdx ++ "|g\"" ++ "\n" ++ "source activate dep_env" ++ "\n"
    ∧ (∀ c2 : Conda, c2.Stager.DepDir = c.Stager.DepDir → c2.Stager.DepsIdx = c.Stager.DepsIdx →
        c2.ProfileD = c.ProfileD)
    ∧ (c.Stager.DepDir = "/home/vcap/deps" → c.Stager.DepsIdx = "0" →
        c.ProfileD =
          "grep -rlI /home/vcap/deps $DEPS_DIR/0/conda | xargs sed -i -e \"s|/home/vcap/deps|$DEPS_DIR/0|g\"\nsource activate dep_env\n") := by
  refine ⟨?_, ?_, ?_⟩
  · apply String.ext
    simp [Conda.ProfileD, fmt_Sprintf, sprintfChars, String.data_append]
  · intro c2 hd hi
    simp [Conda.ProfileD, hd, hi]
  · intro hd hi
    simp [Conda.ProfileD, hd, hi]
    decide

/-- C2 at the behaviour `allFine`, whose dependency directory is `/home/vcap/deps`
and whose index is `0`. -/
theorem C2_profileD_content_witness :
    allFine.ProfileD =
      "grep -rlI /home/vcap/deps $DEPS_DIR/0/conda | xargs sed -i -e \"s|/home/vcap/deps|$DEPS_DIR/0|g\"\nsource activate dep_env\n" :=
  (C2_profileD_content allFine).2.2 rfl rfl

theorem updateCall_ne_cleanCall (c : Conda) : c.updateCall ≠ c.cleanCall := by
  simp [Conda.updateCall, Conda.cleanCall]

theorem update_text_ne_clean_text (a b : String) :
    "Could not run conda env update: " ++ a ≠ "Could not run conda clean: " ++ b := by
  intro h
  have := congrArg String.data h
  simp [String.data_append] at this

/-- C3. `UpdateAndClean` makes the clean call only after the env-update call returned
success. When env-update fails with `e`, env-update is the only call made, clean is
not invoked, and the returned error is `Could not run conda env update: e`, which is
no clean-stage error. The result is nil exactly when both subcommands succeed. -/
theorem C3_updateAndClean_sequencing (c : Conda) (fs : FileSystem) :
    (∀ e, c.outcome c.updateCall = some e →
        (c.UpdateAndClean (State.init fs)).1
            = some ⟨"Could not run conda env update: " ++ e.msg⟩
        ∧ (c.UpdateAndClean (State.init fs)).2.calls = [c.updateCall]
        ∧ c.cleanCall ∉ (c.UpdateAndClean (State.init fs)).2.calls
        ∧ ∀ e2 : GoError, (c.UpdateAndClean (State.init fs)).1
            ≠ some ⟨"Could not run conda clean: " ++ e2.msg⟩)
    ∧ (c.cleanCall ∈ (c.UpdateAndClean (State.init fs)).2.calls →
        c.outcome c.updateCall = none
        ∧ (c.UpdateAndClean (State.init fs)).2.calls = [c.updateCall, c.cleanCall])
    ∧ ((c.UpdateAndClean (State.init fs)).1 = none ↔
        c.outcome c.updateCall = none ∧ c.outcome c.cleanCall = none) := by
  have hne := updateCall_ne_cleanCall c
  cases h1 : c.outcome c.updateCall with
  | some e1 =>
    obtain ⟨fs1, hU⟩ := UpdateAndClean_update c (State.init fs) e1 h1
    rw [hU]
    simp [State.init, hne.symm, update_text_ne_clean_text]
  | none =>
    cases h2 : c.outcome c.cleanCall with
    | some e2 =>
      obtain ⟨fs1, hU⟩ := UpdateAndClean_clean c (State.init fs) e2 h1 h2
      rw [hU]
      simp [State.init]
    | none =>
      obtain ⟨fs1, hU⟩ := UpdateAndClean_ok c (State.init fs) h1 h2
      rw [hU]
      simp [State.init]

/-- C3, at concrete behaviours: env-update fails (one call, update-stage error), and
both subcommands succeed (two calls, nil). -/
theorem C3_updateAndClean_sequencing_witness :
    (updateCrash.UpdateAndClean (State.init [])).1
        = some ⟨"Could not run conda env update: exit status 1"⟩
    ∧ (updateCrash.UpdateAndClean (State.init [])).2.calls = [updateCrash.updateCall]
    ∧ allFine.cleanCall ∈ (allFine.UpdateAndClean (State.init [])).2.calls
    ∧ (allFine.UpdateAndClean (State.init [])).1 = none :=
  ⟨((C3_updateAndClean_sequencing updateCrash []).1 ⟨"exit status 1"⟩ (by decide)).1,
   ((C3_updateAndClean_sequencing updateCrash []).1 ⟨"exit status 1"⟩ (by decide)).2.1,
   by decide,
   (C3_updateAndClean_sequencing allFine []).2.2.2 ⟨by decide, by decide⟩⟩

theorem outcome_tempFile_of_ok {c : Conda} {p : String}
    (h : c.os.TempFile "" "miniconda.sh" = .ok p) : c.outcome tempFileCall = none := by
  simp [Conda.outcome, tempFileCall, h]

theorem outcome_tempFile_of_error {c : Conda} {e : GoError}
    (h : c.os.TempFile "" "miniconda.sh" = .error e) : c.outcome tempFileCall = some e := by
  simp [Conda.outcome, tempFileCall, h]

theorem Install_chmod_once (c : Conda) (v : String) (s : State) :
    ((c.Install v s).2.calls.filter Call.isChmod).length
      ≤ (s.calls.filter Call.isChmod).length + 1 := by
  cases h1 : c.outcome tempFileCall with
  | some e =>
    rw [Install_tempFile c v s e h1]
    simp [tempFileCall, Call.isChmod]
  | none =>
  cases h2 : c.outcome (.installOnlyVersion v c.installer) with
  | some e =>
    obtain ⟨fs1, hI⟩ := Install_resolver c v s e h1 h2
    rw [hI]
    simp [tempFileCall, Call.isChmod]
  | none =>
  cases h3 : c.outcome c.chmodCall with
  | some e =>
    obtain ⟨fs1, hI⟩ := Install_chmod c v s e h1 h2 h3
    rw [hI]
    simp [tempFileCall, Call.isChmod, Conda.chmodCall]
  | none =>
  cases h4 : c.outcome c.installerCall with
  | some e =>
    obtain ⟨fs1, hI⟩ := Install_installer c v s e h1 h2 h3 h4
    rw [hI]
    simp [tempFileCall, Call.isChmod, Conda.chmodCall, Conda.installerCall]
  | none =>
    obtain ⟨fs1, hI⟩ := Install_ok c v s h1 h2 h3 h4
    rw [hI]
    simp [tempFileCall, Call.isChmod, Conda.chmodCall, Conda.installerCall]

/-- C4. When the temporary file `p` was created and `Manifest.InstallOnlyVersion`
returns an error `e`: `Install` returns `Error downloading miniconda: e` after the
calls `TempFile`, `InstallOnlyVersion`, `Remove` only (no chmod, no Command
Executor call); `Run` returns that same error, logs it for the install stage, and
makes no env-update, clean, link or profile-script call. In every run of `Install`
at most one chmod call is made. -/
theorem C4_resolver_failure (c : Conda) (fs : FileSystem) (v : String) :
    (∀ p e, c.os.TempFile "" "miniconda.sh" = .ok p →
        c.Manifest.InstallOnlyVersion v p = some e →
        (c.Install v (State.init fs)).1 = some ⟨"Error downloading miniconda: " ++ e.msg⟩
        ∧ (c.Install v (State.init fs)).2.calls
            = [.tempFile "" "miniconda.sh", .installOnlyVersion v p, .remove p]
        ∧ ∀ k ∈ (c.Install v (State.init fs)).2.calls,
            k.isChmod = false ∧ k.isExecute = false)
    ∧ (∀ p e, c.os.TempFile "" "miniconda.sh" = .ok p →
        c.Manifest.InstallOnlyVersion c.Version p = some e →
        (Run c (State.init fs)).1 = some ⟨"Error downloading miniconda: " ++ e.msg⟩
        ∧ (Run c (State.init fs)).1 = (c.Install c.Version (State.init fs)).1
        ∧ (Run c (State.init fs)).2.calls
            = [.tempFile "" "miniconda.sh", .installOnlyVersion c.Version p, .remove p]
        ∧ (Run c (State.init fs)).2.log
            = [.beginStep "Supplying conda",
                .error ("Could not install conda: " ++ ("Error downloading miniconda: " ++ e.msg))]
        ∧ c.updateCall ∉ (Run c (State.init fs)).2.calls
        ∧ c.cleanCall ∉ (Run c (State.init fs)).2.calls
        ∧ c.linkCall ∉ (Run c (State.init fs)).2.calls
        ∧ c.profileCall ∉ (Run c (State.init fs)).2.calls)
    ∧ ((c.Install v (State.init fs)).2.calls.filter Call.isChmod).length ≤ 1 := by
  refine ⟨?_, ?_, ?_⟩
  · intro p e hT hR
    have hp := installer_of_ok hT
    have h1 := outcome_tempFile_of_ok hT
    have h2 : c.outcome (.installOnlyVersion v c.installer) = some e := by
      rw [hp]; exact hR
    obtain ⟨fs1, hI⟩ := Install_resolver c v (State.init fs) e h1 h2
    rw [hI]
    simp [State.init, tempFileCall, hp, Call.isChmod, Call.isExecute]
  · intro p e hT hR
    have hp := installer_of_ok hT
    have h1 := outcome_tempFile_of_ok hT
    have h2 : c.outcome c.resolverCall = some e := by
      unfold Conda.resolverCall; rw [hp]; exact hR
    obtain ⟨fs1, hI⟩ := Install_resolver c c.Version (State.init fs) e h1 h2
    obtain ⟨fs2, hRun⟩ := Run_failsAt c (State.init fs) .resolver e
      ((failsAt_iff c _ e).2 ⟨h1, h2⟩)
    rw [hRun, hI]
    simp [State.init, tempFileCall, hp, returned, logged, stepsBefore, stageText,
      Conda.callsMade, Conda.resolverCall, Conda.updateCall, Conda.cleanCall, Conda.linkCall,
      Conda.profileCall]
  · have := Install_chmod_once c v (State.init fs)
    simpa [State.init] using this

/-- C4 at a concrete behaviour: the Resolver reports `no such version`. -/
theorem C4_resolver_failure_witness :
    (Run resolverDown (State.init [])).1
        = some ⟨"Error downloading miniconda: " ++ "no such version"⟩
    ∧ (Run resolverDown (State.init [])).2.calls
        = [.tempFile "" "miniconda.sh", .installOnlyVersion "miniconda2" "/tmp/miniconda.sh123",
            .remove "/tmp/miniconda.sh123"] :=
  ⟨((C4_resolver_failure resolverDown [] "miniconda2").2.1 "/tmp/miniconda.sh123"
      ⟨"no such version"⟩ rfl (by decide)).1,
   ((C4_resolver_failure resolverDown [] "miniconda2").2.1 "/tmp/miniconda.sh123"
      ⟨"no such version"⟩ rfl (by decide)).2.2.1⟩

theorem Install_remove_last (c : Conda) (v p : String) (s : State)
    (hT : c.os.TempFile "" "miniconda.sh" = .ok p) :
    (c.Install v s).2.calls.getLast? = some (.remove p)
    ∧ (c.Install v s).2.calls.filter Call.isRemove
        = s.calls.filter Call.isRemove ++ [.remove p] := by
  have hp := installer_of_ok hT
  have h1 := outcome_tempFile_of_ok hT
  cases h2 : c.outcome (.installOnlyVersion v c.installer) with
  | some e =>
    obtain ⟨fs1, hI⟩ := Install_resolver c v s e h1 h2
    rw [hI]
    simp [tempFileCall, Call.isRemove, hp]
  | none =>
  cases h3 : c.outcome c.chmodCall with
  | some e =>
    obtain ⟨fs1, hI⟩ := Install_chmod c v s e h1 h2 h3
    rw [hI]
    simp [tempFileCall, Call.isRemove, Conda.chmodCall, hp]
  | none =>
  cases h4 : c.outcome c.installerCall with
  | some e =>
    obtain ⟨fs1, hI⟩ := Install_installer c v s e h1 h2 h3 h4
    rw [hI]
    simp [tempFileCall, Call.isRemove, Conda.chmodCall, Conda.installerCall, hp]
  | none =>
    obtain ⟨fs1, hI⟩ := Install_ok c v s h1 h2 h3 h4
    rw [hI]
    simp [tempFileCall, Call.isRemove, Conda.chmodCall, Conda.installerCall, hp]

/-- C5, as stated, fails: `os.Remove` can fail and `Install` discards its error, so
the temporary file still exists after `Install` has returned, both when `Install`
returns nil and when it returns an error (here the chmod error). -/
theorem C5_installer_file_removed_counterexample :
    (removeDenied.os.TempFile "" "miniconda.sh" = .ok "/tmp/miniconda.sh123"
      ∧ removeDenied.os.Remove "/tmp/miniconda.sh123" = some ⟨"operation not permitted"⟩
      ∧ (removeDenied.Install "miniconda2" (State.init [])).1 = none
      ∧ "/tmp/miniconda.sh123" ∈ (removeDenied.Install "miniconda2" (State.init [])).2.fs)
    ∧ (chmodRemoveDenied.os.TempFile "" "miniconda.sh" = .ok "/tmp/miniconda.sh123"
      ∧ (chmodRemoveDenied.Install "miniconda2" (State.init [])).1
          = some ⟨"operation not permitted"⟩
      ∧ "/tmp/miniconda.sh123"
          ∈ (chmodRemoveDenied.Install "miniconda2" (State.init [])).2.fs) :=
  ⟨⟨rfl, by decide, by decide, by decide⟩, ⟨rfl, by decide, by decide⟩⟩

/-- C5, amended. After `TempFile` created the file `p`, whatever the Resolver, chmod
and the install subprocess do and whether `Install` returns nil or an error,
`os.Remove(p)` is called exactly once and is the last call of `Install`; when that
call succeeds, `p` does not exist once `Install` has returned. When creating the
temporary file fails with `e`, `Install` returns `e`, the file system is unchanged,
and neither a collaborator nor `os.Remove` was called. -/
theorem C5_installer_file_removed (c : Conda) (v : String) (fs : FileSystem) :
    (∀ p, c.os.TempFile "" "miniconda.sh" = .ok p →
        (c.Install v (State.init fs)).2.calls.getLast? = some (.remove p)
        ∧ (c.Install v (State.init fs)).2.calls.filter Call.isRemove = [.remove p]
        ∧ (c.os.Remove p = none → p ∉ (c.Install v (State.init fs)).2.fs))
    ∧ (∀ e, c.os.TempFile "" "miniconda.sh" = .error e →
        (c.Install v (State.init fs)).1 = some e
        ∧ (c.Install v (State.init fs)).2.fs = fs
        ∧ (c.Install v (State.init fs)).2.calls = [.tempFile "" "miniconda.sh"]
        ∧ ∀ k ∈ (c.Install v (State.init fs)).2.calls, k.isCollaborator = false) := by
  refine ⟨?_, ?_⟩
  · intro p hT
    obtain ⟨hlast, honce⟩ := Install_remove_last c v p (State.init fs) hT
    refine ⟨hlast, ?_, ?_⟩
    · simpa [State.init] using honce
    · intro hR
      simp [Conda.Install, hT, State.Remove, hR]
  · intro e hT
    rw [Install_tempFile c v (State.init fs) e (outcome_tempFile_of_error hT)]
    simp [State.init, tempFileCall, Call.isCollaborator]

/-- C5 amended, at concrete behaviours in which `os.Remove` succeeds, on a file
system that already holds the path: after a successful `Install` and after a failed
install subprocess the removal is the last call and the temporary file is gone; a
failed `TempFile` leaves the file system as it was. -/
theorem C5_installer_file_removed_witness :
    (allFine.Install "miniconda2" (State.init ["/tmp/miniconda.sh123", "/tmp/app"])).1 = none
    ∧ "/tmp/miniconda.sh123"
        ∉ (allFine.Install "miniconda2" (State.init ["/tmp/miniconda.sh123", "/tmp/app"])).2.fs
    ∧ (installerCrash.Install "miniconda2" (State.init [])).1
        = some ⟨"Error installing miniconda: exit status 1"⟩
    ∧ (installerCrash.Install "miniconda2" (State.init [])).2.calls.getLast?
        = some (.remove "/tmp/miniconda.sh123")
    ∧ "/tmp/miniconda.sh123" ∉ (installerCrash.Install "miniconda2" (State.init [])).2.fs
    ∧ (noTempFile.Install "miniconda2" (State.init ["/tmp/app"])).2.fs = ["/tmp/app"] :=
  ⟨by decide,
   ((C5_installer_file_removed allFine "miniconda2" ["/tmp/miniconda.sh123", "/tmp/app"]).1
     "/tmp/miniconda.sh123" rfl).2.2 (by decide),
   by decide,
   ((C5_installer_file_removed installerCrash "miniconda2" []).1
     "/tmp/miniconda.sh123" rfl).1,
   ((C5_installer_file_removed installerCrash "miniconda2" []).1
     "/tmp/miniconda.sh123" rfl).2.2 (by decide),
   ((C5_installer_file_removed noTempFile "miniconda2" ["/tmp/app"]).2
     ⟨"no space left on device"⟩ rfl).2.1⟩

theorem Install_eq_none_iff (c : Conda) (s : State) :
    (c.Install c.Version s).1 = none ↔
      c.outcome tempFileCall = none ∧ c.outcome c.resolverCall = none
        ∧ c.outcome c.chmodCall = none ∧ c.outcome c.installerCall = none := by
  unfold Conda.resolverCall
  cases h1 : c.outcome tempFileCall with
  | some e =>
    rw [Install_tempFile c c.Version s e h1]
    simp
  | none =>
  cases h2 : c.outcome (.installOnlyVersion c.Version c.installer) with
  | some e =>
    obtain ⟨fs1, hI⟩ := Install_resolver c c.Version s e h1 h2
    rw [hI]
    simp
  | none =>
  cases h3 : c.outcome c.chmodCall with
  | some e =>
    obtain ⟨fs1, hI⟩ := Install_chmod c c.Version s e h1 h2 h3
    rw [hI]
    simp
  | none =>
  cases h4 : c.outcome c.installerCall with
  | some e =>
    obtain ⟨fs1, hI⟩ := Install_installer c c.Version s e h1 h2 h3 h4
    rw [hI]
    simp
  | none =>
    obtain ⟨fs1, hI⟩ := Install_ok c c.Version s h1 h2 h3 h4
    rw [hI]
    simp

theorem Run_eq_none_iff (c : Conda) (s : State) : (Run c s).1 = none ↔ c.AllSucceed := by
  rcases scenario c with h | ⟨fp, e, h⟩
  · obtain ⟨fs1, hR⟩ := Run_allSucceed c s h
    rw [hR]
    simp [h]
  · obtain ⟨fs1, hR⟩ := Run_failsAt c s fp e h
    rw [hR]
    have hn : ¬ c.AllSucceed := by
      intro ha
      rw [allSucceed_iff] at ha
      obtain ⟨a1, a2, a3, a4, a5, a6, a7⟩ := ha
      rw [failsAt_iff] at h
      cases fp <;> simp_all
    simp [hn]

/-- C6. `Run` returns nil exactly when `Install`, the env-update subcommand, the
clean subcommand and `WriteProfileD` all succeed. Replacing what
`LinkDirectoryInDepDir` returns changes nothing of the run: same result, same log,
same calls (so the same `WriteProfileD` call). Every other call that returns an
error makes `Run` return an error, the deferred `os.Remove` (no collaborator call,
its result is discarded too) apart: linking is the only collaborator call whose
failure is not fatal. -/
theorem C6_run_result (c : Conda) (fs : FileSystem) :
    ((Run c (State.init fs)).1 = none ↔
        (c.Install c.Version (State.init fs)).1 = none
        ∧ c.outcome c.updateCall = none ∧ c.outcome c.cleanCall = none
        ∧ c.outcome c.profileCall = none)
    ∧ (∀ link : String → String → Option GoError,
        (Run (c.withLink link) (State.init fs)).1 = (Run c (State.init fs)).1
        ∧ (Run (c.withLink link) (State.init fs)).2.log = (Run c (State.init fs)).2.log
        ∧ (Run (c.withLink link) (State.init fs)).2.calls = (Run c (State.init fs)).2.calls
        ∧ ((c.withLink link).profileCall ∈ (Run (c.withLink link) (State.init fs)).2.calls
            ↔ c.profileCall ∈ (Run c (State.init fs)).2.calls))
    ∧ (∀ k ∈ (Run c (State.init fs)).2.calls, ∀ e, c.outcome k = some e →
        k ≠ c.linkCall → k.isRemove = false → (Run c (State.init fs)).1 ≠ none) := by
  refine ⟨?_, ?_, ?_⟩
  · rw [Run_eq_none_iff, Install_eq_none_iff, allSucceed_iff]
    simp [and_assoc]
  · intro link
    have hEq : Run (c.withLink link) (State.init fs) = Run c (State.init fs) := rfl
    have hP : (c.withLink link).profileCall = c.profileCall := rfl
    rw [hEq, hP]
    simp
  · rcases scenario c with h | ⟨fp, e, h⟩
    · obtain ⟨fs1, hR⟩ := Run_allSucceed c (State.init fs) h
      rw [allSucceed_iff] at h
      obtain ⟨a1, a2, a3, a4, a5, a6, a7⟩ := h
      rw [hR]
      simp [State.init, Conda.callsMade, a1, a2, a3, a4, a5, a6, a7, Call.isRemove]
    · obtain ⟨fs1, hR⟩ := Run_failsAt c (State.init fs) fp e h
      rw [hR]
      simp

/-- C6 at a concrete behaviour: linking fails and the run still returns nil after
writing the profile script. -/
theorem C6_run_result_witness :
    linkBroken.outcome linkBroken.linkCall = some ⟨"file exists"⟩
    ∧ (Run linkBroken (State.init [])).1 = none
    ∧ linkBroken.profileCall ∈ (Run linkBroken (State.init [])).2.calls :=
  ⟨by decide,
   (C6_run_result linkBroken []).1.2 ⟨by decide, by decide, by decide, by decide⟩,
   by decide⟩

theorem eq_append_self_iff (pre s : String) : s = pre ++ s ↔ pre = "" := by
  constructor
  · intro h
    have hd := congrArg String.data h
    rw [String.data_append] at hd
    have : pre.data = [] := by simpa using hd
    exact String.ext this
  · rintro rfl
    apply String.ext
    simp [String.data_append]

theorem not_wrapped_self (e : GoError) : ¬ WrappedWithPrefix e e := by
  rintro ⟨pre, hne, h⟩
  exact hne ((eq_append_self_iff pre e.msg).1 h)

theorem wrapped_of_append (pre : String) (e : GoError) (h : pre ≠ "") :
    WrappedWithPrefix ⟨pre ++ e.msg⟩ e ∧ (⟨pre ++ e.msg⟩ : GoError) ≠ e := by
  refine ⟨⟨pre, h, rfl⟩, ?_⟩
  intro heq
  have hm : pre ++ e.msg = e.msg := congrArg GoError.msg heq
  exact h ((eq_append_self_iff pre e.msg).1 hm.symm)

/-- C7, as stated, fails: when `os.Chmod`, `ioutil.TempFile` or
`Stager.WriteProfileD` fails, `Run` returns the underlying error itself, which is
not that error behind a stage prefix. -/
theorem C7_error_wrapping_counterexample :
    (chmodDenied.FailsAt .chmod ⟨"operation not permitted"⟩
      ∧ (Run chmodDenied (State.init [])).1 = some ⟨"operation not permitted"⟩
      ∧ ¬ WrappedWithPrefix ⟨"operation not permitted"⟩ ⟨"operation not permitted"⟩)
    ∧ (noTempFile.FailsAt .tempFile ⟨"no space left on device"⟩
      ∧ (Run noTempFile (State.init [])).1 = some ⟨"no space left on device"⟩
      ∧ ¬ WrappedWithPrefix ⟨"no space left on device"⟩ ⟨"no space left on device"⟩)
    ∧ (profileReadOnly.FailsAt .profileWrite ⟨"read-only file system"⟩
      ∧ (Run profileReadOnly (State.init [])).1 = some ⟨"read-only file system"⟩
      ∧ ¬ WrappedWithPrefix ⟨"read-only file system"⟩ ⟨"read-only file system"⟩) :=
  ⟨⟨by decide, by decide, not_wrapped_self _⟩,
   ⟨by decide, by decide, not_wrapped_self _⟩,
   ⟨by decide, by decide, not_wrapped_self _⟩⟩

/-- C7, amended. When the run fails at `fp` with underlying error `e`, `Run` returns:
for a Resolver, install-subprocess, env-update or cache-clean failure the error
whose text is the stage prefix (`Error downloading miniconda: `,
`Error installing miniconda: `, `Could not run conda env update: `,
`Could not run conda clean: `) followed by the text of `e`, never `e` itself; for a
temp-file, chmod or profile-script write failure the underlying error `e`
unchanged. -/
theorem C7_error_wrapping (c : Conda) (fs : FileSystem) (fp : FailurePoint) (e : GoError)
    (h : c.FailsAt fp e) :
    (Run c (State.init fs)).1 = some
        (match fp with
          | .tempFile => e
          | .resolver => ⟨"Error downloading miniconda: " ++ e.msg⟩
          | .chmod => e
          | .installer => ⟨"Error installing miniconda: " ++ e.msg⟩
          | .envUpdate => ⟨"Could not run conda env update: " ++ e.msg⟩
          | .clean => ⟨"Could not run conda clean: " ++ e.msg⟩
          | .profileWrite => e)
    ∧ (fp = .resolver ∨ fp = .installer ∨ fp = .envUpdate ∨ fp = .clean →
        ∀ r, (Run c (State.init fs)).1 = some r → WrappedWithPrefix r e ∧ r ≠ e)
    ∧ (fp = .tempFile ∨ fp = .chmod ∨ fp = .profileWrite →
        (Run c (State.init fs)).1 = some e) := by
  obtain ⟨fs1, hR⟩ := Run_failsAt c (State.init fs) fp e h
  rw [hR]
  refine ⟨?_, ?_, ?_⟩
  · cases fp <;> rfl
  · intro hfp r hr
    simp only [Option.some.injEq] at hr
    subst hr
    rcases hfp with rfl | rfl | rfl | rfl
    · exact wrapped_of_append "Error downloading miniconda: " e (by decide)
    · exact wrapped_of_append "Error installing miniconda: " e (by decide)
    · exact wrapped_of_append "Could not run conda env update: " e (by decide)
    · exact wrapped_of_append "Could not run conda clean: " e (by decide)
  · intro hfp
    rcases hfp with rfl | rfl | rfl <;> rfl

/-- C7 amended, at concrete behaviours: a failing Resolver is wrapped, a failing
chmod is returned as it is. -/
theorem C7_error_wrapping_witness :
    (resolverDown.FailsAt .resolver ⟨"no such version"⟩
      ∧ (Run resolverDown (State.init [])).1
          = some ⟨"Error downloading miniconda: " ++ "no such version"⟩)
    ∧ (chmodDenied.FailsAt .chmod ⟨"operation not permitted"⟩
      ∧ (Run chmodDenied (State.init [])).1 = some ⟨"operation not permitted"⟩) :=
  ⟨⟨by decide, (C7_error_wrapping resolverDown [] .resolver ⟨"no such version"⟩ (by decide)).1⟩,
   ⟨by decide,
    (C7_error_wrapping chmodDenied [] .chmod ⟨"operation not permitted"⟩ (by decide)).1⟩⟩

/-- C8, as stated, fails: every collaborator call can succeed while the run makes no
subprocess call at all. When `os.Chmod` fails, the Resolver was called and succeeded
and the Command Executor is never invoked; when `ioutil.TempFile` fails, not even
the Resolver is called. -/
theorem C8_subprocess_invocations_counterexample :
    ((∀ k : Call, k.isCollaborator = true → chmodDenied.outcome k = none)
      ∧ (Run chmodDenied (State.init [])).1 = some ⟨"operation not permitted"⟩
      ∧ (Run chmodDenied (State.init [])).2.calls.filter Call.isExecute = [])
    ∧ ((∀ k : Call, k.isCollaborator = true → noTempFile.outcome k = none)
      ∧ (Run noTempFile (State.init [])).1 = some ⟨"no space left on device"⟩
      ∧ (Run noTempFile (State.init [])).2.calls.filter
          (fun k => k.isResolver || k.isExecute) = []) := by
  refine ⟨⟨?_, by decide, by decide⟩, ⟨?_, by decide, by decide⟩⟩
  · intro k hk
    cases k <;> first | rfl | simp [Call.isCollaborator] at hk
  · intro k hk
    cases k <;> first | rfl | simp [Call.isCollaborator] at hk

/-- C8, amended. In a run in which creating the temporary file `p` and the chmod
of `p` succeed and every collaborator call made succeeds, `Run` returns nil and the
calls are, in order, `TempFile`, the Resolver with `Version()` and `p`,
`Chmod(p, 0755)`, the installer `p -b -p <dep-dir>/conda`, `Remove(p)`,
`<dep-dir>/conda/bin/conda env update --quiet -n dep_env -f <build-dir>/environment.yml`,
`<dep-dir>/conda/bin/conda clean -pt`, the bin link and the profile-script write,
every subprocess in working directory `/`. So the Command Executor is invoked exactly
three times, after the one Resolver call. A path `<a>/<b>` is `filepath.Join(a, b)`,
as in the source; for a clean directory `a` this is the text `a/b`
(`filepath_Join_literal`). -/
theorem C8_subprocess_invocations (c : Conda) (fs : FileSystem) (p : String)
    (hT : c.os.TempFile "" "miniconda.sh" = .ok p)
    (hC : c.os.Chmod p 0o755 = none)
    (hcol : ∀ k ∈ (Run c (State.init fs)).2.calls,
      k.isCollaborator = true → c.outcome k = none) :
    (Run c (State.init fs)).1 = none
      ∧ (Run c (State.init fs)).2.calls =
        [ .tempFile "" "miniconda.sh",
          .installOnlyVersion c.Version p,
          .chmod p 0o755,
          .execute "/" (indentWriter .stdout) (indentWriter .stderr) p
            ["-b", "-p", filepath_Join [c.Stager.DepDir, "conda"]],
          .remove p,
          .execute "/" (indentWriter .stdout) (indentWriter .stderr)
            (filepath_Join [filepath_Join [c.Stager.DepDir, "conda"], "bin", "conda"])
            ["env", "update", "--quiet", "-n", "dep_env", "-f",
              filepath_Join [c.Stager.BuildDir, "environment.yml"]],
          .execute "/" (indentWriter .stdout) (indentWriter .stderr)
            (filepath_Join [filepath_Join [c.Stager.DepDir, "conda"], "bin", "conda"])
            ["clean", "-pt"],
          .linkDirectoryInDepDir (filepath_Join [c.Stager.DepDir, "conda", "bin"]) "bin",
          .writeProfileD "conda.sh" c.ProfileD ]
      ∧ (Run c (State.init fs)).2.calls.filter (fun k => k.isResolver || k.isExecute) =
        [ .installOnlyVersion c.Version p,
          .execute "/" (indentWriter .stdout) (indentWriter .stderr) p
            ["-b", "-p", filepath_Join [c.Stager.DepDir, "conda"]],
          .execute "/" (indentWriter .stdout) (indentWriter .stderr)
            (filepath_Join [filepath_Join [c.Stager.DepDir, "conda"], "bin", "conda"])
            ["env", "update", "--quiet", "-n", "dep_env", "-f",
              filepath_Join [c.Stager.BuildDir, "environment.yml"]],
          .execute "/" (indentWriter .stdout) (indentWriter .stderr)
            (filepath_Join [filepath_Join [c.Stager.DepDir, "conda"], "bin", "conda"])
            ["clean", "-pt"] ]
      ∧ ((Run c (State.init fs)).2.calls.filter Call.isExecute).length = 3 := by
  have hp := installer_of_ok hT
  have hA : c.AllSucceed := by
    rcases scenario c with h | ⟨fp, e, h⟩
    · exact h
    · exfalso
      obtain ⟨fs1, hR⟩ := Run_failsAt c (State.init fs) fp e h
      rw [hR] at hcol
      rw [failsAt_iff] at h
      have hchmod : c.outcome c.chmodCall = none := by
        simp [Conda.chmodCall, Conda.outcome, hp, hC]
      cases fp with
      | tempFile => simp [outcome_tempFile_of_ok hT] at h
      | resolver =>
        have := hcol c.resolverCall (by simp [State.init, Conda.callsMade])
          (by simp [Conda.resolverCall, Call.isCollaborator])
        simp [this] at h
      | chmod => simp [hchmod] at h
      | installer =>
        have := hcol c.installerCall (by simp [State.init, Conda.callsMade])
          (by simp [Conda.installerCall, Call.isCollaborator])
        simp [this] at h
      | envUpdate =>
        have := hcol c.updateCall (by simp [State.init, Conda.callsMade])
          (by simp [Conda.updateCall, Call.isCollaborator])
        simp [this] at h
      | clean =>
        have := hcol c.cleanCall (by simp [State.init, Conda.callsMade])
          (by simp [Conda.cleanCall, Call.isCollaborator])
        simp [this] at h
      | profileWrite =>
        have := hcol c.profileCall (by simp [State.init, Conda.callsMade])
          (by simp [Conda.profileCall, Call.isCollaborator])
        simp [this] at h
  obtain ⟨fs1, hR⟩ := Run_allSucceed c (State.init fs) hA
  rw [hR]
  simp [State.init, Conda.callsMade, tempFileCall, Conda.resolverCall, Conda.chmodCall,
    Conda.installerCall, Conda.updateCall, Conda.cleanCall, Conda.linkCall, Conda.profileCall,
    Call.isResolver, Call.isExecute, hp]

/-- C8 amended, at a concrete behaviour: dep-dir `/home/vcap/deps`, build-dir
`/tmp/app`, `runtime.txt` holding `python-3.6.2`, temporary file
`/tmp/miniconda.sh123`. -/
theorem C8_subprocess_invocations_witness :
    (Run python3App (State.init [])).1 = none
    ∧ (Run python3App (State.init [])).2.calls.filter (fun k => k.isResolver || k.isExecute) =
        [ .installOnlyVersion "miniconda3" "/tmp/miniconda.sh123",
          .execute "/" (indentWriter .stdout) (indentWriter .stderr) "/tmp/miniconda.sh123"
            ["-b", "-p", "/home/vcap/deps/conda"],
          .execute "/" (indentWriter .stdout) (indentWriter .stderr)
            "/home/vcap/deps/conda/bin/conda"
            ["env", "update", "--quiet", "-n", "dep_env", "-f", "/tmp/app/environment.yml"],
          .execute "/" (indentWriter .stdout) (indentWriter .stderr)
            "/home/vcap/deps/conda/bin/conda" ["clean", "-pt"] ] :=
  ⟨(C8_subprocess_invocations python3App [] "/tmp/miniconda.sh123" rfl (by decide)
      (by decide)).1,
   (C8_subprocess_invocations python3App [] "/tmp/miniconda.sh123" rfl (by decide)
      (by decide)).2.2.1⟩

theorem Install_logs_no_error (c : Conda) (v : String) (s : State) :
    (c.Install v s).2.log.filter LogEntry.isError = s.log.filter LogEntry.isError := by
  cases h1 : c.outcome tempFileCall with
  | some e =>
    rw [Install_tempFile c v s e h1]
    simp [LogEntry.isError]
  | none =>
  cases h2 : c.outcome (.installOnlyVersion v c.installer) with
  | some e =>
    obtain ⟨fs1, hI⟩ := Install_resolver c v s e h1 h2
    rw [hI]
    simp [LogEntry.isError]
  | none =>
  cases h3 : c.outcome c.chmodCall with
  | some e =>
    obtain ⟨fs1, hI⟩ := Install_chmod c v s e h1 h2 h3
    rw [hI]
    simp [LogEntry.isError]
  | none =>
  cases h4 : c.outcome c.installerCall with
  | some e =>
    obtain ⟨fs1, hI⟩ := Install_installer c v s e h1 h2 h3 h4
    rw [hI]
    simp [LogEntry.isError]
  | none =>
    obtain ⟨fs1, hI⟩ := Install_ok c v s h1 h2 h3 h4
    rw [hI]
    simp [LogEntry.isError]

/-- C9. `Run` returns nil exactly when the last log entry is the step marker
`Done`. When the run fails (at some failure point `fp`), `Done` is not in the log,
the last log entry is the error-severity entry of the stage of `fp` with the
text of the returned error, the calls made are those up to the failing one (and the
removal of the temporary file), and after a call that failed, other than the two
calls whose result the package discards (the bin link and `os.Remove`), no
collaborator is called. -/
theorem C9_done_marker (c : Conda) (fs : FileSystem) :
    ((Run c (State.init fs)).1 = none ↔
        (Run c (State.init fs)).2.log.getLast? = some (.beginStep "Done"))
    ∧ ((Run c (State.init fs)).1 ≠ none → ∃ fp e, c.FailsAt fp e)
    ∧ (∀ fp e, c.FailsAt fp e →
        ∃ err, (Run c (State.init fs)).1 = some err
          ∧ LogEntry.beginStep "Done" ∉ (Run c (State.init fs)).2.log
          ∧ (Run c (State.init fs)).2.log.getLast? = some (.error (stageText fp ++ err.msg))
          ∧ (Run c (State.init fs)).2.calls = c.callsMade fp)
    ∧ List.Pairwise
        (fun k later => c.outcome k ≠ none → k ≠ c.linkCall → k.isRemove = false →
          later.isCollaborator = false)
        (Run c (State.init fs)).2.calls := by
  have hFail : ∀ fp e, c.FailsAt fp e →
      ∃ err, (Run c (State.init fs)).1 = some err
        ∧ LogEntry.beginStep "Done" ∉ (Run c (State.init fs)).2.log
        ∧ (Run c (State.init fs)).2.log.getLast? = some (.error (stageText fp ++ err.msg))
        ∧ (Run c (State.init fs)).2.calls = c.callsMade fp := by
    intro fp e h
    obtain ⟨fs1, hR⟩ := Run_failsAt c (State.init fs) fp e h
    rw [hR]
    refine ⟨returned fp e, rfl, ?_, ?_, ?_⟩
    · cases fp <;> simp [State.init, logged, stepsBefore]
    · simp [State.init, logged]
    · simp [State.init]
  refine ⟨?_, ?_, hFail, ?_⟩
  · rcases scenario c with h | ⟨fp, e, h⟩
    · obtain ⟨fs1, hR⟩ := Run_allSucceed c (State.init fs) h
      rw [hR]
      simp [State.init]
    · obtain ⟨err, h1, h2, h3, h4⟩ := hFail fp e h
      rw [h1, h3]
      simp
  · intro hne
    rcases scenario c with h | h
    · exact absurd ((Run_eq_none_iff c (State.init fs)).2 h) hne
    · exact h
  · rcases scenario c with h | ⟨fp, e, h⟩
    · obtain ⟨fs1, hR⟩ := Run_allSucceed c (State.init fs) h
      rw [allSucceed_iff] at h
      obtain ⟨a1, a2, a3, a4, a5, a6, a7⟩ := h
      rw [hR]
      simp [State.init, Conda.callsMade, a1, a2, a3, a4, a5, a6, a7, Call.isRemove]
    · obtain ⟨err, h1, h2, h3, h4⟩ := hFail fp e h
      rw [h4]
      rw [failsAt_iff] at h
      cases fp <;> simp [Conda.callsMade, h, Call.isCollaborator, Call.isRemove]

/-- C9 at concrete behaviours: a run that ends with `Done`, and a run whose install
subprocess fails, which ends with the install-stage error entry and makes no later
call. -/
theorem C9_done_marker_witness :
    (Run allFine (State.init [])).2.log.getLast? = some (.beginStep "Done")
    ∧ (∃ err, (Run installerCrash (State.init [])).1 = some err
      ∧ LogEntry.beginStep "Done" ∉ (Run installerCrash (State.init [])).2.log
      ∧ (Run installerCrash (State.init [])).2.log.getLast?
          = some (.error (stageText .installer ++ err.msg))
      ∧ (Run installerCrash (State.init [])).2.calls = installerCrash.callsMade .installer) :=
  ⟨(C9_done_marker allFine []).1.1 (by decide),
   (C9_done_marker installerCrash []).2.2.1 .installer ⟨"exit status 1"⟩ (by decide)⟩

/-- C10, as stated, fails: a Resolver failure, which is not the cache-clean step, is
both written to the log at error severity and returned. -/
theorem C10_failure_logging_counterexample :
    resolverDown.FailsAt .resolver ⟨"no such version"⟩
    ∧ (Run resolverDown (State.init [])).1
        = some ⟨"Error downloading miniconda: no such version"⟩
    ∧ LogEntry.error "Could not install conda: Error downloading miniconda: no such version"
        ∈ (Run resolverDown (State.init [])).2.log := by
  decide

/-- C10, amended. At every failure point `Run` both returns the error and writes it
to the log at error severity. The cache-clean failure is the only one that is
logged twice, once by `UpdateAndClean` itself and once by `Run`; every other
failure has exactly one error-severity entry, written by `Run`. Of the two step
methods, `Install` writes no error-severity entry, and `UpdateAndClean` writes one
exactly when its clean call fails. -/
theorem C10_failure_logging (c : Conda) (fs : FileSystem) (fp : FailurePoint) (e : GoError)
    (h : c.FailsAt fp e) :
    (∃ err, (Run c (State.init fs)).1 = some err
      ∧ LogEntry.error (stageText fp ++ err.msg) ∈ (Run c (State.init fs)).2.log)
    ∧ ((Run c (State.init fs)).2.log.filter LogEntry.isError).length
        = (if fp = .clean then 2 else 1)
    ∧ (fp = .clean →
        (Run c (State.init fs)).2.log.filter LogEntry.isError
          = [.error ("Could not run conda clean: " ++ e.msg),
              .error ("Could not update conda env: " ++ ("Could not run conda clean: " ++ e.msg))])
    ∧ (∀ v, (c.Install v (State.init fs)).2.log.filter LogEntry.isError = [])
    ∧ ((c.UpdateAndClean (State.init fs)).2.log.filter LogEntry.isError ≠ [] ↔
        c.outcome c.updateCall = none ∧ c.outcome c.cleanCall ≠ none) := by
  obtain ⟨fs1, hR⟩ := Run_failsAt c (State.init fs) fp e h
  rw [hR]
  refine ⟨⟨returned fp e, rfl, ?_⟩, ?_, ?_, ?_, ?_⟩
  · simp [State.init, logged]
  · cases fp <;> simp [State.init, logged, stepsBefore, LogEntry.isError]
  · rintro rfl
    simp [State.init, logged, stepsBefore, LogEntry.isError, stageText, returned]
  · intro v
    rw [Install_logs_no_error]
    simp [State.init]
  · cases h1 : c.outcome c.updateCall with
    | some e1 =>
      obtain ⟨fs2, hU⟩ := UpdateAndClean_update c (State.init fs) e1 h1
      rw [hU]
      simp [State.init, LogEntry.isError]
    | none =>
      cases h2 : c.outcome c.cleanCall with
      | some e2 =>
        obtain ⟨fs2, hU⟩ := UpdateAndClean_clean c (State.init fs) e2 h1 h2
        rw [hU]
        simp [State.init, LogEntry.isError]
      | none =>
        obtain ⟨fs2, hU⟩ := UpdateAndClean_ok c (State.init fs) h1 h2
        rw [hU]
        simp [State.init, LogEntry.isError]

/-- C10 amended, at concrete behaviours: a cache-clean failure leaves two
error-severity entries, a Resolver failure one. -/
theorem C10_failure_logging_witness :
    ((Run cleanCrash (State.init [])).2.log.filter LogEntry.isError).length = 2
    ∧ ((Run resolverDown (State.init [])).2.log.filter LogEntry.isError).length = 1 :=
  ⟨(C10_failure_logging cleanCrash [] .clean ⟨"exit status 1"⟩ (by decide)).2.1,
   (C10_failure_logging resolverDown [] .resolver ⟨"no such version"⟩ (by decide)).2.1⟩

end CondaSupply
